import Mathlib

/-!
Shallow embedding of the "Empire Conquest" turn-based simulation
(`src/unnamed/part_000`) and of the loading-strategy selection of the
photo-gallery application (`src/image-gal/src/App.tsx`).

Modelling conventions:
* JS numbers that only ever hold integers are `Int` (or `Nat` for turns,
  grid indices and distances); the decimal literals of the seasonal
  multipliers are exact rationals (`Rat`), and `Math.round x` is
  `⌊x + 1/2⌋`, which agrees with the source's semantics on every value
  these computations produce.
* The 12×12 grid is a function `Fin 12 → Fin 12 → Cell`, indexed row
  first (`grid y x`, exactly like `grid[y][x]` in the source).
* `Math.random()` draws are explicit parameters (`Randomness`); the
  random initial terrain and per-cell resource rolls are parameters of
  the initial state.
* Presentation-only data (CSS gradient tables, particle effects, which
  are driven by wall-clock time) is omitted; every field the game rules
  read or write is present.
-/

namespace Empire

/-- Terrain of a cell (`Cell['terrain']`). -/
inductive Terrain
  | grass | forest | mountain | water
deriving DecidableEq, Repr

/-- The seven building types (`Building['type']`). -/
inductive BuildingType
  | castle | house | farm | mine | barracks | tower | market
deriving DecidableEq, Repr

/-- Building owner (`Building['owner']`). -/
inductive Owner
  | player | enemy
deriving DecidableEq, Repr

/-- A placed building (interface `Building`). -/
structure Building where
  type : BuildingType
  level : Nat
  owner : Owner
  income : Int
  adjacencyBonuses : List String
deriving DecidableEq, Repr

/-- One grid cell (interface `Cell`).  The source stores the cell's own
coordinates in the cell; they are kept here and used exactly where the
source uses `cell.x` / `cell.y`. -/
structure Cell where
  x : Nat
  y : Nat
  isRevealed : Bool
  building : Option Building
  terrain : Terrain
  resources : Int
  adjacencyBonus : Int
deriving DecidableEq, Repr

/-- `GRID_SIZE = 12`. -/
def GRID_SIZE : Nat := 12

/-- The game grid, `grid y x` = `grid[y][x]`. -/
def Grid : Type := Fin 12 → Fin 12 → Cell

/-- Per-turn resource delta (interface `ResourceChange`). -/
structure ResourceChange where
  gold : Int
  population : Int
  food : Int
  military : Int
deriving DecidableEq, Repr

/-- The ten event tags (`TurnEvent['type']`). -/
inductive EventType
  | building_built | resource_bonus | population_growth | military_training
  | trade_success | weather_effect | resource_discovery | bandit_attack
  | seasonal_change | achievement
deriving DecidableEq, Repr

/-- Event severity (`TurnEvent['severity']`). -/
inductive Severity
  | positive | negative | neutral
deriving DecidableEq, Repr

/-- A turn event (interface `TurnEvent`; `severity` is optional). -/
structure TurnEvent where
  type : EventType
  message : String
  icon : String
  severity : Option Severity
deriving DecidableEq, Repr

/-- An achievement (interface `Achievement`). -/
structure Achievement where
  id : String
  name : String
  description : String
  icon : String
  unlocked : Bool
  progress : Int
  maxProgress : Int
  reward : Option String
deriving DecidableEq, Repr

/-- Seasonal multipliers (`Season['effects']`). -/
structure SeasonEffects where
  goldBonus : Rat
  foodBonus : Rat
  militaryBonus : Rat
deriving DecidableEq, Repr

/-- A season (interface `Season`); the `colors` gradient table is
presentation-only and omitted. -/
structure Season where
  name : String
  icon : String
  effects : SeasonEffects
deriving DecidableEq, Repr

/-- Day/night flag. -/
inductive TimeOfDay
  | day | night
deriving DecidableEq, Repr

/-- `GameState['gamePhase']`. -/
inductive GamePhase
  | placement | battle | victory
deriving DecidableEq, Repr

/-- `GameState['victoryType']`. -/
inductive VictoryType
  | territory | resources | buildings
deriving DecidableEq, Repr

/-- Player resources (`GameState['player']`), in source field order. -/
structure PlayerState where
  gold : Int
  population : Int
  army : Int
  food : Int
  militaryStrength : Int
deriving DecidableEq, Repr

/-- The game state (interface `GameState`), minus the wall-clock-driven
`particleEffects` list. -/
structure GameState where
  grid : Grid
  turn : Nat
  timeOfDay : TimeOfDay
  isTransitioning : Bool
  player : PlayerState
  selectedCell : Option (Nat × Nat)
  gamePhase : GamePhase
  resourceChanges : ResourceChange
  lastTurnIncome : ResourceChange
  turnEvents : List TurnEvent
  showTurnSummary : Bool
  showEndTurnConfirm : Bool
  territoryControlPercentage : Int
  currentSeason : Season
  achievements : List Achievement
  gameWon : Bool
  victoryType : Option VictoryType
  showVictoryScreen : Bool
  isLoading : Bool

/-- The result of `checkVictoryConditions`. -/
structure VictoryCheck where
  won : Bool
  type : Option VictoryType
deriving DecidableEq, Repr

/-- One turn's worth of `Math.random()` draws used by
`generateRandomEvents`: the single `randomChance` sample and the index
draws for the weather / discovery message tables. -/
structure Randomness where
  chance : Rat
  weatherIdx : Fin 3
  discoveryIdx : Fin 3
deriving DecidableEq, Repr

/-- `Math.round` on the rational reading of a JS number:
round-half-toward-positive-infinity. -/
def jsRound (q : Rat) : Int := ⌊q + 1 / 2⌋

/-- JS `String.prototype.includes`. -/
def jsIncludes (s sub : String) : Bool :=
  s.data.tails.any (fun t => sub.data.isPrefixOf t)

/-- `SEASONS[0]`. -/
def springSeason : Season :=
  { name := "Spring", icon := "🌸"
    effects := { goldBonus := 0.1, foodBonus := 0.2, militaryBonus := 0 } }

/-- `SEASONS[1]`. -/
def summerSeason : Season :=
  { name := "Summer", icon := "☀️"
    effects := { goldBonus := 0.2, foodBonus := 0.3, militaryBonus := 0.1 } }

/-- `SEASONS[2]`. -/
def autumnSeason : Season :=
  { name := "Autumn", icon := "🍂"
    effects := { goldBonus := 0.3, foodBonus := 0.1, militaryBonus := 0.2 } }

/-- `SEASONS[3]`. -/
def winterSeason : Season :=
  { name := "Winter", icon := "❄️"
    effects := { goldBonus := 0, foodBonus := -0.1, militaryBonus := 0.3 } }

/-- The `SEASONS` table. -/
def SEASONS : List Season := [springSeason, summerSeason, autumnSeason, winterSeason]

/-- `SEASONS[i]`; every source access has `i < 4`. -/
def seasonAt (i : Nat) : Season := SEASONS.getD i springSeason

/-- The `INITIAL_ACHIEVEMENTS` table. -/
def INITIAL_ACHIEVEMENTS : List Achievement :=
  [ { id := "first_building", name := "Foundation",
      description := "Build your first structure", icon := "🏗️",
      unlocked := false, progress := 0, maxProgress := 1,
      reward := some "Unlock: Market building" },
    { id := "gold_collector", name := "Gold Rush",
      description := "Accumulate 1000 gold", icon := "💰",
      unlocked := false, progress := 0, maxProgress := 1000,
      reward := some "+10% gold income" },
    { id := "empire_builder", name := "Empire Builder",
      description := "Control 25% of the territory", icon := "🏰",
      unlocked := false, progress := 0, maxProgress := 25,
      reward := some "Unlock: Advanced buildings" },
    { id := "all_buildings", name := "Master Architect",
      description := "Build all building types", icon := "🏛️",
      unlocked := false, progress := 0, maxProgress := 7,
      reward := some "Victory condition unlocked" },
    { id := "population_boom", name := "Population Boom",
      description := "Reach 100 population", icon := "👥",
      unlocked := false, progress := 0, maxProgress := 100,
      reward := some "+20% population growth" } ]

/-- A building's purchase cost (one `BUILDING_COSTS` row). -/
structure BuildingCost where
  gold : Int
  food : Int
  population : Int
deriving DecidableEq, Repr

/-- The `BUILDING_COSTS` table.  It has no `castle` row: the source
indexes it with a placeable type only, and reading the missing row
would throw before any state is changed. -/
def BUILDING_COSTS : BuildingType → Option BuildingCost
  | .house => some { gold := 50, food := 5, population := 0 }
  | .farm => some { gold := 75, food := 0, population := 2 }
  | .mine => some { gold := 100, food := 10, population := 3 }
  | .barracks => some { gold := 150, food := 15, population := 5 }
  | .tower => some { gold := 200, food := 20, population := 3 }
  | .market => some { gold := 120, food := 8, population := 4 }
  | .castle => none

/-- One `BUILDING_EFFECTS` row. -/
structure BuildingEffects where
  produces : ResourceChange
  consumes : ResourceChange
deriving DecidableEq, Repr

/-- The `BUILDING_EFFECTS` table. -/
def BUILDING_EFFECTS : BuildingType → BuildingEffects
  | .castle =>
    { produces := ⟨20, 2, 0, 5⟩, consumes := ⟨0, 0, 5, 0⟩ }
  | .house =>
    { produces := ⟨5, 3, 0, 0⟩, consumes := ⟨0, 0, 2, 0⟩ }
  | .farm =>
    { produces := ⟨10, 0, 20, 0⟩, consumes := ⟨2, 1, 0, 0⟩ }
  | .mine =>
    { produces := ⟨30, 0, 0, 0⟩, consumes := ⟨0, 2, 8, 0⟩ }
  | .barracks =>
    { produces := ⟨0, 0, 0, 8⟩, consumes := ⟨10, 3, 15, 0⟩ }
  | .tower =>
    { produces := ⟨0, 0, 0, 12⟩, consumes := ⟨5, 1, 8, 0⟩ }
  | .market =>
    { produces := ⟨25, 1, 0, 0⟩, consumes := ⟨0, 2, 5, 0⟩ }

/-- One `PLACEMENT_RULES` row (description string omitted). -/
structure PlacementRule where
  validTerrain : List Terrain
  maxDistance : Nat
  minDistance : Nat
deriving DecidableEq, Repr

/-- The `PLACEMENT_RULES` table. -/
def PLACEMENT_RULES : BuildingType → PlacementRule
  | .castle => { validTerrain := [.grass, .mountain], maxDistance := 10, minDistance := 0 }
  | .house => { validTerrain := [.grass, .forest], maxDistance := 3, minDistance := 0 }
  | .farm => { validTerrain := [.grass], maxDistance := 5, minDistance := 1 }
  | .mine => { validTerrain := [.mountain, .forest], maxDistance := 10, minDistance := 0 }
  | .barracks => { validTerrain := [.grass, .mountain], maxDistance := 4, minDistance := 2 }
  | .tower => { validTerrain := [.grass, .mountain], maxDistance := 6, minDistance := 1 }
  | .market => { validTerrain := [.grass], maxDistance := 3, minDistance := 1 }

/-- The `ADJACENCY_BONUSES` table; `none` where the source object has no
entry (the source reads missing entries as `|| 0`). -/
def ADJACENCY_BONUSES : BuildingType → BuildingType → Option Int
  | .castle, .house => some 10
  | .castle, .barracks => some 15
  | .castle, .tower => some 20
  | .house, .house => some 5
  | .house, .market => some 10
  | .house, .castle => some 15
  | .farm, .house => some 5
  | .farm, .market => some 15
  | .farm, .farm => some (-5)
  | .mine, .market => some 10
  | .mine, .barracks => some 5
  | .barracks, .tower => some 15
  | .barracks, .castle => some 10
  | .barracks, .barracks => some 10
  | .tower, .barracks => some 10
  | .tower, .tower => some 5
  | .tower, .castle => some 20
  | .market, .house => some 10
  | .market, .farm => some 15
  | .market, .market => some (-10)
  | _, _ => none

/-- `getBaseIncome`. -/
def getBaseIncome (buildingType : BuildingType) : Int :=
  (BUILDING_EFFECTS buildingType).produces.gold

/-- `grid.flat()`: the cells in row-major order. -/
def gridCells (g : Grid) : List Cell :=
  (List.finRange 12).flatMap (fun y => (List.finRange 12).map (fun x => g y x))

/-- Whether a cell holds a player-owned building
(`cell.building && cell.building.owner === 'player'`). -/
def isPlayerBuilding (c : Cell) : Bool :=
  match c.building with
  | some b => decide (b.owner = Owner.player)
  | none => false

/-- Number of player-owned buildings on the grid
(`grid.flat().filter(cell => cell.building?.owner === 'player').length`). -/
def playerBuildingCount (g : Grid) : Nat :=
  ((gridCells g).filter isPlayerBuilding).length

/-- Number of revealed cells
(`grid.flat().filter(cell => cell.isRevealed).length`). -/
def revealedCount (g : Grid) : Nat :=
  ((gridCells g).filter (fun c => c.isRevealed)).length

/-- `calculateTerritoryControl`. -/
def calculateTerritoryControl (g : Grid) : Int :=
  jsRound (((revealedCount g : Int) : Rat) / ((GRID_SIZE : Rat) * GRID_SIZE) * 100)

/-- `checkVictoryConditions` as a function of the state it reads. -/
def checkVictoryConditions (s : GameState) : VictoryCheck :=
  if 60 ≤ s.territoryControlPercentage then { won := true, type := some .territory }
  else if 5000 ≤ s.player.gold ∧ 200 ≤ s.player.population ∧
      500 ≤ s.player.food ∧ 100 ≤ s.player.militaryStrength then
    { won := true, type := some .resources }
  else
    match s.achievements.find? (fun a => a.id == "all_buildings") with
    | some a => if a.unlocked then { won := true, type := some .buildings } else { won := false, type := none }
    | none => { won := false, type := none }

/-- The list of all seven building types, for counting distinct types. -/
def allBuildingTypes : List BuildingType :=
  [.castle, .house, .farm, .mine, .barracks, .tower, .market]

/-- Size of `new Set(grid.flat().filter(player buildings).map(type))`:
the number of distinct building types among the player's buildings. -/
def uniqueBuildingCount (g : Grid) : Nat :=
  (allBuildingTypes.filter (fun t =>
    (gridCells g).any (fun c =>
      match c.building with
      | some b => decide (b.owner = Owner.player) && decide (b.type = t)
      | none => false))).length

/-- The per-achievement `switch` of `updateAchievements` (it reads only
the grid, the player resources and the territory percentage of `st`). -/
def updateAchievement (st : GameState) (a : Achievement) : Achievement :=
  if a.id = "first_building" then
    let buildingCount := playerBuildingCount st.grid
    { a with progress := min (buildingCount : Int) 1, unlocked := decide (1 ≤ buildingCount) }
  else if a.id = "gold_collector" then
    { a with progress := min st.player.gold 1000, unlocked := decide (1000 ≤ st.player.gold) }
  else if a.id = "empire_builder" then
    { a with progress := min st.territoryControlPercentage 25,
             unlocked := decide (25 ≤ st.territoryControlPercentage) }
  else if a.id = "all_buildings" then
    let uniqueBuildings := uniqueBuildingCount st.grid
    { a with progress := (uniqueBuildings : Int), unlocked := decide (7 ≤ uniqueBuildings) }
  else if a.id = "population_boom" then
    { a with progress := min st.player.population 100,
             unlocked := decide (100 ≤ st.player.population) }
  else a

/-- `updateAchievements`. -/
def updateAchievements (st : GameState) : List Achievement :=
  st.achievements.map (updateAchievement st)

/-- The weather event table of `generateRandomEvents`. -/
def weatherEvents (season : Season) : List TurnEvent :=
  [ { type := .weather_effect,
      message := season.icon ++ " Perfect weather boosts all production by 15%!",
      icon := "🌈", severity := some .positive },
    { type := .weather_effect,
      message := "⛈️ Storms reduce military effectiveness this turn.",
      icon := "⚡", severity := some .negative },
    { type := .weather_effect,
      message := "🌙 Clear skies improve night operations.",
      icon := "✨", severity := some .positive } ]

/-- The discovery event table of `generateRandomEvents`. -/
def discoveryEvents : List TurnEvent :=
  [ { type := .resource_discovery,
      message := "Miners discovered a rich gold vein! +200 gold bonus.",
      icon := "⛏️", severity := some .positive },
    { type := .resource_discovery,
      message := "Fertile lands discovered! +50 food production.",
      icon := "🌾", severity := some .positive },
    { type := .resource_discovery,
      message := "Ancient ruins found! +20 population joins your empire.",
      icon := "🏛️", severity := some .positive } ]

/-- Out-of-range default for the event-table reads below; the index is
a `Fin 3` so it is never used. -/
def dummyEvent : TurnEvent :=
  { type := .weather_effect, message := "", icon := "", severity := none }

/-- `generateRandomEvents`, with the `Math.random()` draws explicit. -/
def generateRandomEvents (turn : Nat) (season : Season) (r : Randomness) : List TurnEvent :=
  let e1 : List TurnEvent :=
    if r.chance < 0.1 then
      [(weatherEvents season).getD r.weatherIdx.val dummyEvent]
    else []
  let e2 : List TurnEvent :=
    if 0.1 < r.chance ∧ r.chance < 0.18 then
      [discoveryEvents.getD r.discoveryIdx.val dummyEvent]
    else []
  let e3 : List TurnEvent :=
    if 0.18 < r.chance ∧ r.chance < 0.23 then
      [ { type := .bandit_attack,
          message := "🏴‍☠️ Bandits attack! Lost some resources but gained military experience.",
          icon := "⚔️", severity := some .negative } ]
    else []
  let e4 : List TurnEvent :=
    if turn % 4 = 0 ∧ 1 < turn then
      let newSeason := seasonAt (((turn - 1) / 4) % 4)
      [ { type := .seasonal_change,
          message := newSeason.icon ++ " " ++ newSeason.name ++
            " arrives! New bonuses and visual theme active.",
          icon := newSeason.icon, severity := some .neutral } ]
    else []
  e1 ++ e2 ++ e3 ++ e4

/-- `calculateDistance`: Chebyshev distance. -/
def calculateDistance (x1 y1 x2 y2 : Nat) : Nat :=
  max ((x1 : Int) - x2).natAbs ((y1 : Int) - y2).natAbs

/-- `findNearestBuilding` (the optional building-type filter is unused at
its only call site and omitted). -/
def findNearestBuilding (s : GameState) (x y : Nat) : Option Nat :=
  (gridCells s.grid).foldl
    (fun minDistance cell =>
      match cell.building with
      | some b =>
        if b.owner = Owner.player then
          let distance := calculateDistance x y cell.x cell.y
          match minDistance with
          | none => some distance
          | some m => some (min m distance)
        else minDistance
      | none => minDistance)
    none

/-- The 3×3 offset loop `for dy in -1..1, for dx in -1..1`, as
`(dy, dx)` pairs in source iteration order. -/
def offsets3x3 : List (Int × Int) :=
  ([-1, 0, 1] : List Int).flatMap (fun dy => ([-1, 0, 1] : List Int).map (fun dx => (dy, dx)))

/-- Read `grid[y][x]` with the source's bounds test
(`0 <= x < GRID_SIZE && 0 <= y < GRID_SIZE`). -/
def cellAt? (g : Grid) (x y : Int) : Option Cell :=
  if hx : 0 ≤ x ∧ x < 12 then
    if hy : 0 ≤ y ∧ y < 12 then
      some (g ⟨y.toNat, by omega⟩ ⟨x.toNat, by omega⟩)
    else none
  else none

/-- `calculateAdjacencyBonus` over an explicit grid (the source reads the
grid through the component closure). -/
def calculateAdjacencyBonus (g : Grid) (x y : Nat) (buildingType : BuildingType) : Int :=
  offsets3x3.foldl
    (fun (totalBonus : Int) (d : Int × Int) =>
      if d.1 = 0 ∧ d.2 = 0 then totalBonus
      else
        match cellAt? g ((x : Int) + d.2) ((y : Int) + d.1) with
        | some adjCell =>
          match adjCell.building with
          | some b =>
            if b.owner = Owner.player then
              totalBonus + (ADJACENCY_BONUSES buildingType b.type).getD 0
            else totalBonus
          | none => totalBonus
        | none => totalBonus)
    0

/-- `canAffordBuilding`.  A `castle` has no `BUILDING_COSTS` row: the
source would throw on the missing row before changing any state, so
affordability never holds for it. -/
def canAffordBuilding (s : GameState) (buildingType : BuildingType) : Bool :=
  match BUILDING_COSTS buildingType with
  | some cost =>
    decide (cost.gold ≤ s.player.gold ∧ cost.food ≤ s.player.food ∧
      cost.population ≤ s.player.population)
  | none => false

/-- `isValidPlacement`. -/
def isValidPlacement (s : GameState) (x y : Fin 12) (buildingType : BuildingType) : Bool :=
  let cell := s.grid y x
  if ¬cell.isRevealed ∨ cell.building.isSome ∨ cell.terrain = .water then false
  else
    let rules := PLACEMENT_RULES buildingType
    if ¬(cell.terrain ∈ rules.validTerrain) then false
    else if buildingType ≠ .castle then
      match findNearestBuilding s x.val y.val with
      | none => false
      | some distanceToNearestBuilding =>
        if distanceToNearestBuilding < rules.minDistance ∨
            rules.maxDistance < distanceToNearestBuilding then false
        else true
    else true

/-- Overwrite one cell of the grid. -/
def setCell (g : Grid) (y x : Fin 12) (c : Cell) : Grid :=
  fun j i => if j = y ∧ i = x then c else g j i

/-- `newGrid[newY][newX].isRevealed = true` guarded by the source's
bounds check. -/
def revealAt (g : Grid) (x y : Int) : Grid :=
  if hx : 0 ≤ x ∧ x < 12 then
    if hy : 0 ≤ y ∧ y < 12 then
      let yf : Fin 12 := ⟨y.toNat, by omega⟩
      let xf : Fin 12 := ⟨x.toNat, by omega⟩
      setCell g yf xf { g yf xf with isRevealed := true }
    else g
  else g

/-- `revealAdjacentCells`: the 3×3 reveal loop around `(x, y)`. -/
def revealAdjacentCells (x y : Fin 12) (g : Grid) : Grid :=
  offsets3x3.foldl (fun acc d => revealAt acc ((x : Int) + d.2) ((y : Int) + d.1)) g

/-- `updateAllAdjacencyBonuses`.  The source loop mutates the same grid
it reads through an alias, but it writes only `income` and
`adjacencyBonus`, which `calculateAdjacencyBonus` never reads, so the
sequential writes equal this simultaneous update. -/
def updateAllAdjacencyBonuses (g : Grid) : Grid :=
  fun j i =>
    let cell := g j i
    match cell.building with
    | some b =>
      if b.owner = Owner.player then
        let bonus := calculateAdjacencyBonus g cell.x cell.y b.type
        { cell with adjacencyBonus := bonus,
                    building := some { b with income := getBaseIncome b.type + bonus } }
      else cell
    | none => cell

/-- `calculateTurnResources`: fold of the per-building production and
consumption over `grid.flat()`, starting from the base deltas.
(`cell.adjacencyBonus || 0` is the identity on the stored number.) -/
def calculateTurnResources (s : GameState) : ResourceChange :=
  (gridCells s.grid).foldl
    (fun acc cell =>
      match cell.building with
      | some b =>
        if b.owner = Owner.player then
          let effects := BUILDING_EFFECTS b.type
          let bonus := cell.adjacencyBonus
          { gold := acc.gold + (effects.produces.gold + bonus) - effects.consumes.gold,
            population := acc.population + effects.produces.population - effects.consumes.population,
            food := acc.food + effects.produces.food - effects.consumes.food,
            military := acc.military + effects.produces.military - effects.consumes.military }
        else acc
      | none => acc)
    { gold := 5, population := 1, food := -2, military := 0 }

/-- The building record written by `placeBuilding`, its income seeded
with the adjacency bonus computed against the pre-placement grid (as in
the source). -/
def placedBuilding (s : GameState) (x y : Fin 12) (buildingType : BuildingType) : Building :=
  { type := buildingType, level := 1, owner := .player,
    income := getBaseIncome buildingType + calculateAdjacencyBonus s.grid x.val y.val buildingType,
    adjacencyBonuses := [] }

/-- The cell written at `(x, y)` by `placeBuilding` (on top of the
revealed grid). -/
def placedCell (s : GameState) (x y : Fin 12) (buildingType : BuildingType) : Cell :=
  { revealAdjacentCells x y s.grid y x with
    building := some (placedBuilding s x y buildingType),
    adjacencyBonus := calculateAdjacencyBonus s.grid x.val y.val buildingType }

/-- The grid built by a successful `placeBuilding`: reveal the 3×3 area,
drop the new building, then recompute every player building's income
and bonus. -/
def placedGrid (s : GameState) (x y : Fin 12) (buildingType : BuildingType) : Grid :=
  updateAllAdjacencyBonuses
    (setCell (revealAdjacentCells x y s.grid) y x (placedCell s x y buildingType))

/-- The state built by a successful `placeBuilding` once the cost row
has been fetched. -/
def placeBuildingApplied (s : GameState) (x y : Fin 12) (buildingType : BuildingType)
    (cost : BuildingCost) : GameState :=
  let grid3 := placedGrid s x y buildingType
  let newTerritoryControl := calculateTerritoryControl grid3
  let player2 :=
    { s.player with
      gold := s.player.gold - cost.gold,
      food := s.player.food - cost.food,
      population := s.player.population - cost.population +
        (if buildingType = .house then 2 else 0) }
  let st :=
    { s with grid := grid3, player := player2,
             territoryControlPercentage := newTerritoryControl }
  { st with achievements := updateAchievements st }

/-- `placeBuilding`. -/
def placeBuilding (s : GameState) (x y : Fin 12) (buildingType : BuildingType) : GameState :=
  if isValidPlacement s x y buildingType && canAffordBuilding s buildingType then
    match BUILDING_COSTS buildingType with
    | none => s
    | some cost => placeBuildingApplied s x y buildingType cost
  else s

/-- `generateTurnEvents`. -/
def generateTurnEvents (resourceChanges : ResourceChange) (buildingCount : Nat) : List TurnEvent :=
  (if 2 < resourceChanges.population then
    [ { type := .population_growth,
        message := "Your population is booming! +" ++ toString resourceChanges.population ++
          " citizens joined your empire.",
        icon := "👥", severity := none } ]
  else []) ++
  (if 50 < resourceChanges.gold then
    [ { type := .trade_success,
        message := "Excellent trade routes! Your merchants earned an extra +" ++
          toString (Int.fdiv resourceChanges.gold 10) ++ " gold.",
        icon := "💰", severity := none } ]
  else []) ++
  (if 5 < resourceChanges.military then
    [ { type := .military_training,
        message := "Your forces grow stronger! Military training yields +" ++
          toString resourceChanges.military ++ " strength.",
        icon := "⚔️", severity := none } ]
  else []) ++
  (if 5 < buildingCount then
    [ { type := .resource_bonus,
        message := "Your well-planned city provides efficiency bonuses to all buildings!",
        icon := "🏗️", severity := none } ]
  else []) ++
  (if resourceChanges.food < -10 then
    [ { type := .resource_bonus,
        message := "Food supplies are running low. Consider building more farms.",
        icon := "⚠️", severity := none } ]
  else [])

/-- The `seasonalBonuses` block of `nextTurn`. -/
def seasonalBonuses (rc : ResourceChange) (season : Season) : ResourceChange :=
  { gold := jsRound ((rc.gold : Rat) * season.effects.goldBonus),
    population := jsRound ((rc.population : Rat) * 0),
    food := jsRound ((rc.food : Rat) * season.effects.foodBonus),
    military := jsRound ((rc.military : Rat) * season.effects.militaryBonus) }

/-- The `adjustedResourceChanges` block of `nextTurn`. -/
def adjustedResourceChanges (rc : ResourceChange) (season : Season) : ResourceChange :=
  let sb := seasonalBonuses rc season
  { gold := rc.gold + sb.gold,
    population := rc.population,
    food := rc.food + sb.food,
    military := rc.military + sb.military }

/-- The `eventBonuses` accumulation of `nextTurn` over the random
events. -/
def eventBonusesOf (randomEvents : List TurnEvent) : ResourceChange :=
  randomEvents.foldl
    (fun acc event =>
      match event.type with
      | .resource_discovery =>
        let acc1 := if jsIncludes event.message "gold" then { acc with gold := acc.gold + 200 } else acc
        let acc2 := if jsIncludes event.message "food" then { acc1 with food := acc1.food + 50 } else acc1
        if jsIncludes event.message "population" then { acc2 with population := acc2.population + 20 } else acc2
      | .bandit_attack =>
        { acc with gold := acc.gold - 50, food := acc.food - 20, military := acc.military + 5 }
      | _ => acc)
    { gold := 0, population := 0, food := 0, military := 0 }

/-- `nextTurn`, with the random draws explicit.  The final
`checkVictoryConditions()` call in the source closes over the component's
pre-update `gameState`, so it is evaluated on the input state `s`, not on
the freshly built state.  (The trailing 3-second timeout that clears
`isTransitioning`, and the particle effects, are wall-clock UI actions
outside the state transition.) -/
def nextTurn (s : GameState) (r : Randomness) : GameState :=
  let resourceChanges := calculateTurnResources s
  let newTimeOfDay : TimeOfDay := match s.timeOfDay with | .day => .night | .night => .day
  let buildingCount := playerBuildingCount s.grid
  let seasonIndex := (s.turn / 4) % 4
  let newSeason := seasonAt seasonIndex
  let adjusted := adjustedResourceChanges resourceChanges newSeason
  let basicEvents := generateTurnEvents adjusted buildingCount
  let randomEvents := generateRandomEvents (s.turn + 1) newSeason r
  let allEvents := basicEvents ++ randomEvents
  let eventBonuses := eventBonusesOf randomEvents
  let finalResourceChanges : ResourceChange :=
    { gold := adjusted.gold + eventBonuses.gold,
      population := adjusted.population + eventBonuses.population,
      food := adjusted.food + eventBonuses.food,
      military := adjusted.military + eventBonuses.military }
  let newPlayer :=
    { s.player with
      gold := max 0 (s.player.gold + finalResourceChanges.gold),
      population := max 1 (s.player.population + finalResourceChanges.population),
      food := max 0 (s.player.food + finalResourceChanges.food),
      militaryStrength := max 0 (s.player.militaryStrength + finalResourceChanges.military),
      army := max 0 (s.player.army + Int.fdiv finalResourceChanges.military 2) }
  let newState :=
    { s with turn := s.turn + 1, timeOfDay := newTimeOfDay, isTransitioning := true,
             showTurnSummary := true, showEndTurnConfirm := false, player := newPlayer,
             resourceChanges := finalResourceChanges, lastTurnIncome := finalResourceChanges,
             turnEvents := allEvents, currentSeason := newSeason, isLoading := false }
  let newState2 := { newState with achievements := updateAchievements newState }
  let victoryCheck := checkVictoryConditions s
  if victoryCheck.won then
    { newState2 with gameWon := true, victoryType := victoryCheck.type,
                     showVictoryScreen := true, gamePhase := .victory }
  else newState2

/-- The initial grid.  Terrain and the per-cell resource roll are
`Math.random()` driven and taken as parameters; the castle is placed at
the center `(6, 6)` and the 3×3 area around it is revealed. -/
def initGrid (terrain : Fin 12 → Fin 12 → Terrain) (res : Fin 12 → Fin 12 → Int) : Grid :=
  fun y x =>
    { x := x.val, y := y.val,
      isRevealed := decide (calculateDistance x.val y.val 6 6 ≤ 1),
      building :=
        if x.val = 6 ∧ y.val = 6 then
          some { type := .castle, level := 1, owner := .player, income := 20, adjacencyBonuses := [] }
        else none,
      terrain := terrain y x,
      resources := res y x,
      adjacencyBonus := 0 }

/-- The initial `GameState` built by the `useState` initializer. -/
def initGameState (terrain : Fin 12 → Fin 12 → Terrain) (res : Fin 12 → Fin 12 → Int) : GameState :=
  { grid := initGrid terrain res,
    turn := 1, timeOfDay := .day, isTransitioning := false,
    player := { gold := 300, population := 10, army := 5, food := 50, militaryStrength := 5 },
    selectedCell := none, gamePhase := .placement,
    resourceChanges := ⟨0, 0, 0, 0⟩, lastTurnIncome := ⟨0, 0, 0, 0⟩,
    turnEvents := [], showTurnSummary := false, showEndTurnConfirm := false,
    territoryControlPercentage := jsRound ((9 : Rat) / ((GRID_SIZE : Rat) * GRID_SIZE) * 100),
    currentSeason := springSeason,
    achievements := INITIAL_ACHIEVEMENTS,
    gameWon := false, victoryType := none, showVictoryScreen := false, isLoading := false }

/-- A state-changing player operation: a building placement or a turn
advance (with its random draws). -/
inductive Op
  | place (x y : Fin 12) (buildingType : BuildingType)
  | advance (r : Randomness)

/-- Apply one operation. -/
def applyOp (s : GameState) : Op → GameState
  | .place x y t => placeBuilding s x y t
  | .advance r => nextTurn s r

/-- Apply a sequence of operations. -/
def applyOps (s : GameState) (ops : List Op) : GameState :=
  ops.foldl applyOp s

end Empire

namespace ImageGal

/-- Connection speed classification of `detectConnectionSpeed`. -/
inductive ConnectionSpeed
  | fast | slow
deriving DecidableEq, Repr

/-- The three loading strategies of the gallery. -/
inductive LoadingStrategy
  | infiniteScroll | loadMore | pagination
deriving DecidableEq, Repr

/-- The strategy selection block of `updateViewportInfo`
(`src/image-gal/src/App.tsx`): `isDesktop = !portrait`,
`isFastConnection = speed === 'fast'`. -/
def selectLoadingStrategy (isPortrait : Bool) (speed : ConnectionSpeed) : LoadingStrategy :=
  let isDesktop := !isPortrait
  let isFastConnection := speed = ConnectionSpeed.fast
  if isDesktop then
    if isFastConnection then .infiniteScroll else .loadMore
  else .pagination

end ImageGal

/-! ## Helper lemmas -/

namespace Empire

/-- Summing a function over `grid.flat()` is the double sum over all
grid positions. -/
theorem sum_map_gridCells {M : Type} [AddCommMonoid M] (g : Grid) (f : Cell → M) :
    ((gridCells g).map f).sum = ∑ y : Fin 12, ∑ x : Fin 12, f (g y x) := by
  simp only [gridCells, List.flatMap_def, List.map_flatten, List.sum_flatten, List.map_map,
    Fin.sum_univ_def, Function.comp_def]

/-- Unfolding the `calculateTurnResources` fold into four independent
sums. -/
theorem calculateTurnResources_foldl (l : List Cell) (acc : ResourceChange) :
    l.foldl
      (fun acc cell =>
        match cell.building with
        | some b =>
          if b.owner = Owner.player then
            let effects := BUILDING_EFFECTS b.type
            let bonus := cell.adjacencyBonus
            { gold := acc.gold + (effects.produces.gold + bonus) - effects.consumes.gold,
              population := acc.population + effects.produces.population - effects.consumes.population,
              food := acc.food + effects.produces.food - effects.consumes.food,
              military := acc.military + effects.produces.military - effects.consumes.military }
          else acc
        | none => acc) acc =
    { gold := acc.gold + (l.map (fun cell =>
        match cell.building with
        | some b =>
          if b.owner = Owner.player then
            (BUILDING_EFFECTS b.type).produces.gold + cell.adjacencyBonus -
              (BUILDING_EFFECTS b.type).consumes.gold
          else 0
        | none => 0)).sum,
      population := acc.population + (l.map (fun cell =>
        match cell.building with
        | some b =>
          if b.owner = Owner.player then
            (BUILDING_EFFECTS b.type).produces.population -
              (BUILDING_EFFECTS b.type).consumes.population
          else 0
        | none => 0)).sum,
      food := acc.food + (l.map (fun cell =>
        match cell.building with
        | some b =>
          if b.owner = Owner.player then
            (BUILDING_EFFECTS b.type).produces.food - (BUILDING_EFFECTS b.type).consumes.food
          else 0
        | none => 0)).sum,
      military := acc.military + (l.map (fun cell =>
        match cell.building with
        | some b =>
          if b.owner = Owner.player then
            (BUILDING_EFFECTS b.type).produces.military -
              (BUILDING_EFFECTS b.type).consumes.military
          else 0
        | none => 0)).sum } := by
  induction l generalizing acc with
  | nil => simp
  | cons c l ih =>
    simp only [List.foldl_cons, List.map_cons, List.sum_cons]
    rw [ih]
    rcases hc : c.building with _ | b
    · simp only [hc, ResourceChange.mk.injEq]
      omega
    · by_cases ho : b.owner = Owner.player <;>
        simp only [hc, ho, if_true, if_false, ite_true, ite_false, ResourceChange.mk.injEq] <;>
        omega

end Empire

namespace Empire

/-- C1: `calculateTurnResources` returns, for each of gold, population,
food and military, the base delta (gold +5, population +1, food −2,
military 0) plus, for every player-owned building on the grid, that
building type's production minus its consumption as given by
`BUILDING_EFFECTS`, with the cell's stored adjacency bonus added to the
gold delta only. -/
theorem c1_turn_resource_aggregation (s : GameState) :
    calculateTurnResources s =
      { gold := 5 + ∑ y : Fin 12, ∑ x : Fin 12,
          (match (s.grid y x).building with
           | some b =>
             if b.owner = Owner.player then
               (BUILDING_EFFECTS b.type).produces.gold + (s.grid y x).adjacencyBonus -
                 (BUILDING_EFFECTS b.type).consumes.gold
             else 0
           | none => 0),
        population := 1 + ∑ y : Fin 12, ∑ x : Fin 12,
          (match (s.grid y x).building with
           | some b =>
             if b.owner = Owner.player then
               (BUILDING_EFFECTS b.type).produces.population -
                 (BUILDING_EFFECTS b.type).consumes.population
             else 0
           | none => 0),
        food := -2 + ∑ y : Fin 12, ∑ x : Fin 12,
          (match (s.grid y x).building with
           | some b =>
             if b.owner = Owner.player then
               (BUILDING_EFFECTS b.type).produces.food - (BUILDING_EFFECTS b.type).consumes.food
             else 0
           | none => 0),
        military := 0 + ∑ y : Fin 12, ∑ x : Fin 12,
          (match (s.grid y x).building with
           | some b =>
             if b.owner = Owner.player then
               (BUILDING_EFFECTS b.type).produces.military -
                 (BUILDING_EFFECTS b.type).consumes.military
             else 0
           | none => 0) } := by
  unfold calculateTurnResources
  rw [calculateTurnResources_foldl]
  simp only [sum_map_gridCells]

end Empire

namespace ImageGal

/-- C8: the gallery's loading strategy is a function of orientation and
connection speed: landscape + fast connection selects infinite scroll,
landscape + slow connection selects the load-more button, and portrait
always selects page-based pagination regardless of connection speed. -/
theorem c8_loading_strategy :
    selectLoadingStrategy false .fast = .infiniteScroll ∧
    selectLoadingStrategy false .slow = .loadMore ∧
    (∀ speed : ConnectionSpeed, selectLoadingStrategy true speed = .pagination) := by
  refine ⟨rfl, rfl, fun speed => ?_⟩
  cases speed <;> rfl

end ImageGal

namespace Empire

/-- `nextTurn` never changes the grid. -/
theorem nextTurn_grid (s : GameState) (r : Randomness) : (nextTurn s r).grid = s.grid := by
  simp only [nextTurn]
  split <;> rfl

/-- `nextTurn` never changes the stored territory percentage. -/
theorem nextTurn_territory (s : GameState) (r : Randomness) :
    (nextTurn s r).territoryControlPercentage = s.territoryControlPercentage := by
  simp only [nextTurn]
  split <;> rfl

/-- `nextTurn` increments the turn counter. -/
theorem nextTurn_turn (s : GameState) (r : Randomness) : (nextTurn s r).turn = s.turn + 1 := by
  simp only [nextTurn]
  split <;> rfl

/-- The season installed by `nextTurn`. -/
theorem nextTurn_currentSeason (s : GameState) (r : Randomness) :
    (nextTurn s r).currentSeason = seasonAt (s.turn / 4 % 4) := by
  simp only [nextTurn]
  split <;> rfl

/-- The resource deltas recorded by `nextTurn`: the seasonally adjusted
building aggregate plus the random-event bonuses. -/
theorem nextTurn_resourceChanges (s : GameState) (r : Randomness) :
    (nextTurn s r).resourceChanges =
      { gold := (adjustedResourceChanges (calculateTurnResources s) (seasonAt (s.turn / 4 % 4))).gold +
          (eventBonusesOf (generateRandomEvents (s.turn + 1) (seasonAt (s.turn / 4 % 4)) r)).gold,
        population := (adjustedResourceChanges (calculateTurnResources s) (seasonAt (s.turn / 4 % 4))).population +
          (eventBonusesOf (generateRandomEvents (s.turn + 1) (seasonAt (s.turn / 4 % 4)) r)).population,
        food := (adjustedResourceChanges (calculateTurnResources s) (seasonAt (s.turn / 4 % 4))).food +
          (eventBonusesOf (generateRandomEvents (s.turn + 1) (seasonAt (s.turn / 4 % 4)) r)).food,
        military := (adjustedResourceChanges (calculateTurnResources s) (seasonAt (s.turn / 4 % 4))).military +
          (eventBonusesOf (generateRandomEvents (s.turn + 1) (seasonAt (s.turn / 4 % 4)) r)).military } := by
  simp only [nextTurn]
  split <;> rfl

/-- The player resources after `nextTurn`, with the clamping applied. -/
theorem nextTurn_player (s : GameState) (r : Randomness) :
    (nextTurn s r).player =
      { gold := max 0 (s.player.gold + (nextTurn s r).resourceChanges.gold),
        population := max 1 (s.player.population + (nextTurn s r).resourceChanges.population),
        army := max 0 (s.player.army + Int.fdiv (nextTurn s r).resourceChanges.military 2),
        food := max 0 (s.player.food + (nextTurn s r).resourceChanges.food),
        militaryStrength := max 0 (s.player.militaryStrength + (nextTurn s r).resourceChanges.military) } := by
  simp only [nextTurn]
  split <;> rfl

/-- `nextTurn` decides victory from the *pre-advance* state. -/
theorem nextTurn_gamePhase (s : GameState) (r : Randomness) :
    (nextTurn s r).gamePhase =
      (if (checkVictoryConditions s).won then GamePhase.victory else s.gamePhase) := by
  simp only [nextTurn]
  split <;> simp_all

/-- `nextTurn`'s `gameWon` flag comes from the pre-advance victory
check. -/
theorem nextTurn_gameWon (s : GameState) (r : Randomness) :
    (nextTurn s r).gameWon = (s.gameWon || (checkVictoryConditions s).won) := by
  simp only [nextTurn]
  split <;> simp_all

end Empire

namespace Empire

/-- C4: on each turn advance the active season is
`SEASONS[floor(turn / 4) mod 4]`, cycling Spring, Summer, Autumn,
Winter, each season lasting four turns and the cycle repeating; the
turn's gold, food and military deltas are each increased by
`round(delta * seasonal factor)`, while the population delta receives
no seasonal modification. -/
theorem c4_seasonal_modifiers :
    (∀ (s : GameState) (r : Randomness),
      (nextTurn s r).currentSeason = seasonAt (s.turn / 4 % 4)) ∧
    SEASONS.map Season.name = ["Spring", "Summer", "Autumn", "Winter"] ∧
    (∀ t : Nat, seasonAt ((t + 16) / 4 % 4) = seasonAt (t / 4 % 4)) ∧
    (∀ k j : Nat, j < 4 → seasonAt ((4 * k + j) / 4 % 4) = seasonAt (4 * k / 4 % 4)) ∧
    (∀ (rc : ResourceChange) (season : Season),
      adjustedResourceChanges rc season =
        { gold := rc.gold + jsRound ((rc.gold : Rat) * season.effects.goldBonus),
          population := rc.population,
          food := rc.food + jsRound ((rc.food : Rat) * season.effects.foodBonus),
          military := rc.military + jsRound ((rc.military : Rat) * season.effects.militaryBonus) }) ∧
    (∀ (s : GameState) (r : Randomness),
      (nextTurn s r).resourceChanges.gold =
        (adjustedResourceChanges (calculateTurnResources s) (seasonAt (s.turn / 4 % 4))).gold +
          (eventBonusesOf (generateRandomEvents (s.turn + 1) (seasonAt (s.turn / 4 % 4)) r)).gold) := by
  refine ⟨nextTurn_currentSeason, rfl, ?_, ?_, ?_, ?_⟩
  · intro t
    have h : (t + 16) / 4 % 4 = t / 4 % 4 := by omega
    rw [h]
  · intro k j hj
    have h : (4 * k + j) / 4 % 4 = 4 * k / 4 % 4 := by omega
    rw [h]
  · intro rc season
    rfl
  · intro s r
    rw [nextTurn_resourceChanges]

/-- C4 witness: the four-turns-per-season conjunct applied at a
concrete turn. -/
theorem c4_seasonal_modifiers_witness :
    3 < 4 ∧ seasonAt ((4 * 2 + 3) / 4 % 4) = seasonAt (4 * 2 / 4 % 4) :=
  ⟨by omega, c4_seasonal_modifiers.2.2.2.1 2 3 (by omega)⟩

end Empire

namespace Empire

/-- C5: the victory evaluator returns a win exactly when territory
control is at least 60%, or the resource thresholds (5000 gold, 200
population, 500 food, 100 military strength) all hold, or the
`all_buildings` achievement is unlocked (which `updateAchievements`
sets exactly when all 7 building types have been built by the player);
the reported type is territory / resources / buildings respectively,
with territory taking priority. -/
theorem c5_victory_conditions :
    (∀ s : GameState,
      ((checkVictoryConditions s).won = true ↔
        60 ≤ s.territoryControlPercentage ∨
        (5000 ≤ s.player.gold ∧ 200 ≤ s.player.population ∧ 500 ≤ s.player.food ∧
          100 ≤ s.player.militaryStrength) ∨
        (∃ a, s.achievements.find? (fun a => a.id == "all_buildings") = some a ∧
          a.unlocked = true)) ∧
      (checkVictoryConditions s).type =
        (if 60 ≤ s.territoryControlPercentage then some VictoryType.territory
         else if 5000 ≤ s.player.gold ∧ 200 ≤ s.player.population ∧ 500 ≤ s.player.food ∧
             100 ≤ s.player.militaryStrength then some VictoryType.resources
         else if ((s.achievements.find? (fun a => a.id == "all_buildings")).map
             Achievement.unlocked).getD false then some VictoryType.buildings
         else none)) ∧
    (∀ (st : GameState), ∀ a ∈ updateAchievements st, a.id = "all_buildings" →
      (a.unlocked = true ↔ 7 ≤ uniqueBuildingCount st.grid)) := by
  constructor
  · intro s
    unfold checkVictoryConditions
    by_cases h1 : 60 ≤ s.territoryControlPercentage
    · simp [h1]
    · by_cases h2 : 5000 ≤ s.player.gold ∧ 200 ≤ s.player.population ∧ 500 ≤ s.player.food ∧
          100 ≤ s.player.militaryStrength
      · simp [h1, h2]
      · rcases h3 : s.achievements.find? (fun a => a.id == "all_buildings") with _ | a
        · simp [h1, h2, h3]
        · by_cases h4 : a.unlocked <;> simp [h1, h2, h3, h4]
  · intro st a ha hid
    unfold updateAchievements at ha
    rcases List.mem_map.1 ha with ⟨orig, _, heq⟩
    subst heq
    unfold updateAchievement at hid ⊢
    split_ifs at hid ⊢ with g1 g2 g3 g4 g5 <;>
      simp_all

/-- C5 witness: the `all_buildings` flag characterisation applied on a
concrete state (the table of initial achievements, an empty-handed
player on a fully hidden grid of grass). -/
theorem c5_victory_conditions_witness :
    (updateAchievement
        { grid := fun y x =>
            { x := x.val, y := y.val, isRevealed := false, building := none,
              terrain := .grass, resources := 0, adjacencyBonus := 0 },
          turn := 1, timeOfDay := .day, isTransitioning := false,
          player := { gold := 0, population := 0, army := 0, food := 0, militaryStrength := 0 },
          selectedCell := none, gamePhase := .placement,
          resourceChanges := ⟨0, 0, 0, 0⟩, lastTurnIncome := ⟨0, 0, 0, 0⟩,
          turnEvents := [], showTurnSummary := false, showEndTurnConfirm := false,
          territoryControlPercentage := 0, currentSeason := springSeason,
          achievements := INITIAL_ACHIEVEMENTS, gameWon := false, victoryType := none,
          showVictoryScreen := false, isLoading := false }
        { id := "all_buildings", name := "Master Architect",
          description := "Build all building types", icon := "🏛️",
          unlocked := false, progress := 0, maxProgress := 7,
          reward := some "Victory condition unlocked" }).unlocked = true ↔
      7 ≤ uniqueBuildingCount (fun y x =>
            { x := x.val, y := y.val, isRevealed := false, building := none,
              terrain := .grass, resources := 0, adjacencyBonus := 0 }) := by
  have h := c5_victory_conditions.2
    { grid := fun y x =>
        { x := x.val, y := y.val, isRevealed := false, building := none,
          terrain := .grass, resources := 0, adjacencyBonus := 0 },
      turn := 1, timeOfDay := .day, isTransitioning := false,
      player := { gold := 0, population := 0, army := 0, food := 0, militaryStrength := 0 },
      selectedCell := none, gamePhase := .placement,
      resourceChanges := ⟨0, 0, 0, 0⟩, lastTurnIncome := ⟨0, 0, 0, 0⟩,
      turnEvents := [], showTurnSummary := false, showEndTurnConfirm := false,
      territoryControlPercentage := 0, currentSeason := springSeason,
      achievements := INITIAL_ACHIEVEMENTS, gameWon := false, victoryType := none,
      showVictoryScreen := false, isLoading := false }
  exact h _ (by
      refine List.mem_map.2 ⟨INITIAL_ACHIEVEMENTS.get ⟨3, by decide⟩, ?_, rfl⟩
      decide)
    (by decide)

end Empire

namespace Empire

/-- An all-grass terrain roll for concrete test states. -/
def allGrassTerrain : Fin 12 → Fin 12 → Terrain := fun _ _ => .grass

/-- A constant per-cell resource roll for concrete test states. -/
def constResources : Fin 12 → Fin 12 → Int := fun _ _ => 10

/-- A concrete freshly initialised game. -/
def sampleState : GameState := initGameState allGrassTerrain constResources

/-- A random draw whose `randomChance` lands in the resource-discovery
window, selecting the gold-vein message. -/
def drawA : Randomness := { chance := 0.15, weatherIdx := 0, discoveryIdx := 0 }

/-- A random draw whose `randomChance` triggers no random event. -/
def drawB : Randomness := { chance := 0.5, weatherIdx := 0, discoveryIdx := 0 }

/-- Evaluation of the random events for `drawA` on the initial turn. -/
theorem generateRandomEvents_sample_drawA :
    generateRandomEvents (sampleState.turn + 1) springSeason drawA =
      [discoveryEvents.getD 0 dummyEvent] := by
  show generateRandomEvents 2 springSeason drawA = _
  unfold generateRandomEvents
  norm_num [drawA]

/-- Evaluation of the random events for `drawB` on the initial turn. -/
theorem generateRandomEvents_sample_drawB :
    generateRandomEvents (sampleState.turn + 1) springSeason drawB = [] := by
  show generateRandomEvents 2 springSeason drawB = _
  unfold generateRandomEvents
  norm_num [drawB]

/-- The building aggregate of the initial sample state: the lone castle. -/
theorem calculateTurnResources_sample :
    calculateTurnResources sampleState = ⟨25, 3, -7, 5⟩ := by decide

/-- Seasonal adjustment of the sample aggregate in Spring. -/
theorem adjustedResourceChanges_sample :
    adjustedResourceChanges ⟨25, 3, -7, 5⟩ springSeason = ⟨28, 3, -8, 5⟩ := by
  unfold adjustedResourceChanges seasonalBonuses
  simp only [springSeason, jsRound]
  norm_num [ResourceChange.mk.injEq]

/-- C7 counterexample: the turn-resolution step is *not* a deterministic
function of the state alone — from the same state, the random draw
`drawA` (which rolls a resource discovery) and the draw `drawB` (which
rolls no event) produce different gold totals, so two evaluations of
`nextTurn` from equal states can disagree. -/
theorem c7_determinism_counterexample :
    (nextTurn sampleState drawA).player.gold = 528 ∧
    (nextTurn sampleState drawB).player.gold = 328 ∧
    (nextTurn sampleState drawA).player.gold ≠ (nextTurn sampleState drawB).player.gold := by
  have hseason : seasonAt (sampleState.turn / 4 % 4) = springSeason := rfl
  have hA : (nextTurn sampleState drawA).player.gold = 528 := by
    rw [nextTurn_player]
    simp only [nextTurn_resourceChanges, hseason, calculateTurnResources_sample,
      adjustedResourceChanges_sample, generateRandomEvents_sample_drawA]
    decide
  have hB : (nextTurn sampleState drawB).player.gold = 328 := by
    rw [nextTurn_player]
    simp only [nextTurn_resourceChanges, hseason, calculateTurnResources_sample,
      adjustedResourceChanges_sample, generateRandomEvents_sample_drawB]
    decide
  refine ⟨hA, hB, ?_⟩
  rw [hA, hB]
  decide

/-- C7 amended: the turn-resolution step is a pure function of the game
state *and the sampled random draws*: two evaluations from equal states
with equal draws produce equal resource totals, equal turn events, and
an equal resulting state (with different draws they may differ, as the
counterexample shows). -/
theorem c7_determinism_amended (s1 s2 : GameState) (r1 r2 : Randomness)
    (hs : s1 = s2) (hr : r1 = r2) :
    (nextTurn s1 r1).resourceChanges = (nextTurn s2 r2).resourceChanges ∧
    (nextTurn s1 r1).player = (nextTurn s2 r2).player ∧
    (nextTurn s1 r1).turnEvents = (nextTurn s2 r2).turnEvents ∧
    nextTurn s1 r1 = nextTurn s2 r2 := by
  subst hs; subst hr
  exact ⟨rfl, rfl, rfl, rfl⟩

/-- C7 witness: the amended determinism theorem applied at a concrete
state and draw. -/
theorem c7_determinism_amended_witness :
    (nextTurn sampleState drawA).resourceChanges = (nextTurn sampleState drawA).resourceChanges ∧
    (nextTurn sampleState drawA).player = (nextTurn sampleState drawA).player ∧
    (nextTurn sampleState drawA).turnEvents = (nextTurn sampleState drawA).turnEvents ∧
    nextTurn sampleState drawA = nextTurn sampleState drawA :=
  c7_determinism_amended sampleState sampleState drawA drawA rfl rfl

end Empire

namespace Empire

/-- Unfolding of the `isValidPlacement` checks into the terrain and
distance conditions. -/
theorem isValidPlacement_eq_true_iff (s : GameState) (x y : Fin 12) (t : BuildingType) :
    isValidPlacement s x y t = true ↔
      ((s.grid y x).isRevealed = true ∧ (s.grid y x).building = none ∧
        (s.grid y x).terrain ≠ .water ∧
        (s.grid y x).terrain ∈ (PLACEMENT_RULES t).validTerrain ∧
        (t ≠ .castle → ∃ d, findNearestBuilding s x.val y.val = some d ∧
          (PLACEMENT_RULES t).minDistance ≤ d ∧ d ≤ (PLACEMENT_RULES t).maxDistance)) := by
  unfold isValidPlacement
  by_cases h1 : ¬(s.grid y x).isRevealed = true ∨ (s.grid y x).building.isSome = true ∨
      (s.grid y x).terrain = .water
  · rw [if_pos h1]
    refine iff_of_false (by simp) ?_
    rintro ⟨ha, hb, hc, -, -⟩
    rcases h1 with h | h | h
    · exact h ha
    · rw [hb] at h; simp at h
    · exact hc h
  · rw [if_neg h1]
    push_neg at h1
    obtain ⟨ha, hb, hc⟩ := h1
    have hbn : (s.grid y x).building = none := Option.not_isSome_iff_eq_none.mp hb
    by_cases h2 : ¬((s.grid y x).terrain ∈ (PLACEMENT_RULES t).validTerrain)
    · rw [if_pos h2]
      refine iff_of_false (by simp) ?_
      rintro ⟨-, -, -, hmem, -⟩
      exact h2 hmem
    · rw [if_neg h2]
      push_neg at h2
      by_cases h3 : t ≠ .castle
      · rw [if_pos h3]
        rcases hf : findNearestBuilding s x.val y.val with _ | d <;> dsimp only
        · refine iff_of_false (by simp) ?_
          rintro ⟨-, -, -, -, hdist⟩
          rcases hdist h3 with ⟨d, hd, -, -⟩
          simp at hd
        · by_cases h4 : d < (PLACEMENT_RULES t).minDistance ∨ (PLACEMENT_RULES t).maxDistance < d
          · rw [if_pos h4]
            refine iff_of_false (by simp) ?_
            rintro ⟨-, -, -, -, hdist⟩
            rcases hdist h3 with ⟨d', hd', hlo, hhi⟩
            injection hd' with hd'
            subst hd'
            omega
          · rw [if_neg h4]
            push_neg at h4
            refine iff_of_true rfl ?_
            exact ⟨ha, hbn, hc, h2, fun _ => ⟨d, rfl, h4.1, h4.2⟩⟩
      · rw [if_neg h3]
        push_neg at h3
        refine iff_of_true rfl ?_
        exact ⟨ha, hbn, hc, h2, fun ht => absurd h3 ht⟩

/-- Unfolding of `canAffordBuilding` into the cost-coverage condition. -/
theorem canAffordBuilding_eq_true_iff (s : GameState) (t : BuildingType) :
    canAffordBuilding s t = true ↔
      ∃ c, BUILDING_COSTS t = some c ∧ c.gold ≤ s.player.gold ∧
        c.food ≤ s.player.food ∧ c.population ≤ s.player.population := by
  unfold canAffordBuilding
  rcases h : BUILDING_COSTS t with _ | c
  · simp
  · simp [decide_eq_true_eq, and_assoc]

/-- C2: `placeBuilding (x, y, type)` adds a building at `(x, y)` only if
the cell is revealed, empty and not water, its terrain is allowed by
`PLACEMENT_RULES[type]`, for every non-castle type the Chebyshev
distance to the nearest player-owned building exists and lies within
the rule's `[minDistance, maxDistance]`, and gold, food and population
each cover `BUILDING_COSTS[type]` (a castle has no cost row, so the
coverage condition never holds for it); when any of these conditions
fails, the game state is left completely unchanged. -/
theorem c2_placement_gating (s : GameState) (x y : Fin 12) (t : BuildingType) :
    ((isValidPlacement s x y t && canAffordBuilding s t) = true ↔
      ((s.grid y x).isRevealed = true ∧ (s.grid y x).building = none ∧
        (s.grid y x).terrain ≠ .water ∧
        (s.grid y x).terrain ∈ (PLACEMENT_RULES t).validTerrain ∧
        (t ≠ .castle → ∃ d, findNearestBuilding s x.val y.val = some d ∧
          (PLACEMENT_RULES t).minDistance ≤ d ∧ d ≤ (PLACEMENT_RULES t).maxDistance) ∧
        (∃ c, BUILDING_COSTS t = some c ∧ c.gold ≤ s.player.gold ∧
          c.food ≤ s.player.food ∧ c.population ≤ s.player.population))) ∧
    (¬(isValidPlacement s x y t && canAffordBuilding s t) = true →
      placeBuilding s x y t = s) ∧
    ((isValidPlacement s x y t && canAffordBuilding s t) = true →
      ∃ b, ((placeBuilding s x y t).grid y x).building = some b ∧
        b.type = t ∧ b.owner = .player ∧ b.level = 1) := by
  refine ⟨?_, ?_, ?_⟩
  · rw [Bool.and_eq_true, isValidPlacement_eq_true_iff, canAffordBuilding_eq_true_iff]
    tauto
  · intro h
    unfold placeBuilding
    rw [if_neg h]
  · intro h
    have h2 := h
    rw [Bool.and_eq_true] at h2
    have hafford := h2.2
    rw [canAffordBuilding_eq_true_iff] at hafford
    obtain ⟨c, hc, -⟩ := hafford
    unfold placeBuilding
    rw [if_pos h, hc]
    simp only [placeBuildingApplied, placedGrid, placedCell, placedBuilding,
      updateAllAdjacencyBonuses, setCell]
    simp

/-- C2 witness: a valid, affordable house placement next to the initial
castle actually passes the gate and lands a player-owned house. -/
theorem c2_placement_gating_witness :
    (isValidPlacement sampleState 7 6 .house && canAffordBuilding sampleState .house) = true ∧
    ∃ b, ((placeBuilding sampleState 7 6 .house).grid 6 7).building = some b ∧
      b.type = BuildingType.house ∧ b.owner = .player ∧ b.level = 1 :=
  ⟨by decide, (c2_placement_gating sampleState 7 6 .house).2.2 (by decide)⟩

end Empire

namespace Empire

/-- One `revealAt` step either leaves a cell alone or only sets its
`isRevealed` flag. -/
theorem revealAt_cases (g : Grid) (a b : Int) (j i : Fin 12) :
    revealAt g a b j i = g j i ∨ revealAt g a b j i = { g j i with isRevealed := true } := by
  unfold revealAt setCell
  split_ifs with hx hy
  · dsimp only
    split_ifs with h
    · obtain ⟨hj, hi⟩ := h
      right
      rw [hj, hi]
    · left; rfl
  · left; rfl
  · left; rfl

/-- The reveal fold either leaves a cell alone or only sets its
`isRevealed` flag. -/
theorem foldl_revealAt_cases (l : List (Int × Int)) (x y : Fin 12) (g : Grid) (j i : Fin 12) :
    (l.foldl (fun acc d => revealAt acc ((x : Int) + d.2) ((y : Int) + d.1)) g) j i = g j i ∨
    (l.foldl (fun acc d => revealAt acc ((x : Int) + d.2) ((y : Int) + d.1)) g) j i =
      { g j i with isRevealed := true } := by
  induction l generalizing g with
  | nil => left; rfl
  | cons d l ih =>
    simp only [List.foldl_cons]
    rcases ih (revealAt g ((x : Int) + d.2) ((y : Int) + d.1)) with h | h <;> rw [h] <;>
      rcases revealAt_cases g ((x : Int) + d.2) ((y : Int) + d.1) j i with h2 | h2 <;> rw [h2]
    · left; rfl
    · right; rfl
    · right; rfl
    · right; rfl

/-- `revealAdjacentCells` changes no field other than `isRevealed`. -/
theorem revealAdjacentCells_cases (x y : Fin 12) (g : Grid) (j i : Fin 12) :
    revealAdjacentCells x y g j i = g j i ∨
    revealAdjacentCells x y g j i = { g j i with isRevealed := true } :=
  foldl_revealAt_cases offsets3x3 x y g j i

/-- Revealing preserves the buildings. -/
theorem revealAdjacentCells_building (x y : Fin 12) (g : Grid) (j i : Fin 12) :
    (revealAdjacentCells x y g j i).building = (g j i).building := by
  rcases revealAdjacentCells_cases x y g j i with h | h <;> rw [h]

/-- Revealing preserves the stored cell coordinates. -/
theorem revealAdjacentCells_coords (x y : Fin 12) (g : Grid) (j i : Fin 12) :
    (revealAdjacentCells x y g j i).x = (g j i).x ∧
    (revealAdjacentCells x y g j i).y = (g j i).y := by
  rcases revealAdjacentCells_cases x y g j i with h | h <;> rw [h] <;> exact ⟨rfl, rfl⟩

/-- Revealing never hides a revealed cell. -/
theorem revealAdjacentCells_mono (x y : Fin 12) (g : Grid) (j i : Fin 12)
    (h : (g j i).isRevealed = true) : (revealAdjacentCells x y g j i).isRevealed = true := by
  rcases revealAdjacentCells_cases x y g j i with h2 | h2 <;> rw [h2]
  exact h

/-- The recomputation pass keeps every cell's building presence, type,
owner and level, and touches neither `isRevealed`, the coordinates nor
the terrain. -/
theorem updateAllAdjacencyBonuses_shape (g : Grid) (j i : Fin 12) :
    ((updateAllAdjacencyBonuses g) j i).isRevealed = (g j i).isRevealed ∧
    ((updateAllAdjacencyBonuses g) j i).x = (g j i).x ∧
    ((updateAllAdjacencyBonuses g) j i).y = (g j i).y ∧
    ((updateAllAdjacencyBonuses g) j i).terrain = (g j i).terrain ∧
    ((updateAllAdjacencyBonuses g) j i).building.map (fun b => (b.type, b.owner, b.level)) =
      (g j i).building.map (fun b => (b.type, b.owner, b.level)) := by
  unfold updateAllAdjacencyBonuses
  rcases h : (g j i).building with _ | b
  · simp [h]
  · by_cases ho : b.owner = Owner.player <;> simp [h, ho]

/-- Recomputing the bonuses does not change the bonuses being computed:
`calculateAdjacencyBonus` reads only the neighbours' building type and
owner, which the pass preserves. -/
theorem calculateAdjacencyBonus_updateAll (g : Grid) (x y : Nat) (t : BuildingType) :
    calculateAdjacencyBonus (updateAllAdjacencyBonuses g) x y t =
      calculateAdjacencyBonus g x y t := by
  unfold calculateAdjacencyBonus
  apply List.foldl_ext
  intro acc d _
  by_cases hd : d.1 = 0 ∧ d.2 = 0
  · simp [hd]
  · rw [if_neg hd, if_neg hd]
    unfold cellAt?
    split_ifs with hx hy
    · have hsh := (updateAllAdjacencyBonuses_shape g ⟨((y : Int) + d.1).toNat, by omega⟩
        ⟨((x : Int) + d.2).toNat, by omega⟩).2.2.2.2
      rcases hb : (g ⟨((y : Int) + d.1).toNat, by omega⟩ ⟨((x : Int) + d.2).toNat, by omega⟩).building
        with _ | b <;>
        rcases hb2 : (updateAllAdjacencyBonuses g ⟨((y : Int) + d.1).toNat, by omega⟩
          ⟨((x : Int) + d.2).toNat, by omega⟩).building with _ | b2 <;>
        rw [hb, hb2] at hsh <;> simp only [hb, hb2] <;> simp at hsh
      obtain ⟨hty, how, -⟩ := hsh
      rw [hty, how]
    · rfl
    · rfl

end Empire

namespace Empire

/-- Folding `+ f` over a list is adding the sum of `f`. -/
theorem foldl_add_eq_sum {α : Type} (f : α → Int) (l : List α) (init : Int) :
    l.foldl (fun a b => a + f b) init = init + (l.map f).sum := by
  induction l generalizing init with
  | nil => simp
  | cons c l ih => simp [ih, add_assoc]

/-- The eight neighbour offsets, in source iteration order. -/
def neighborOffsets : List (Int × Int) :=
  [(-1, -1), (-1, 0), (-1, 1), (0, -1), (0, 1), (1, -1), (1, 0), (1, 1)]

/-- The per-neighbour adjacency contribution read by the 3×3 loop. -/
def adjacencyContribution (g : Grid) (x y : Nat) (t : BuildingType) (d : Int × Int) : Int :=
  match cellAt? g ((x : Int) + d.2) ((y : Int) + d.1) with
  | some adjCell =>
    match adjCell.building with
    | some b => if b.owner = Owner.player then (ADJACENCY_BONUSES t b.type).getD 0 else 0
    | none => 0
  | none => 0

/-- The adjacency fold steps by exactly the neighbour contribution. -/
theorem calculateAdjacencyBonus_eq_sum (g : Grid) (x y : Nat) (t : BuildingType) :
    calculateAdjacencyBonus g x y t =
      (neighborOffsets.map (adjacencyContribution g x y t)).sum := by
  unfold calculateAdjacencyBonus
  rw [show offsets3x3.foldl
      (fun (totalBonus : Int) (d : Int × Int) =>
        if d.1 = 0 ∧ d.2 = 0 then totalBonus
        else
          match cellAt? g ((x : Int) + d.2) ((y : Int) + d.1) with
          | some adjCell =>
            match adjCell.building with
            | some b =>
              if b.owner = Owner.player then
                totalBonus + (ADJACENCY_BONUSES t b.type).getD 0
              else totalBonus
            | none => totalBonus
          | none => totalBonus) 0 =
    offsets3x3.foldl (fun (a : Int) (d : Int × Int) =>
      a + (if d.1 = 0 ∧ d.2 = 0 then 0 else adjacencyContribution g x y t d)) 0 from
    List.foldl_ext _ _ _ ?_]
  · rw [foldl_add_eq_sum]
    simp only [offsets3x3, neighborOffsets, adjacencyContribution, List.flatMap_cons,
      List.flatMap_nil, List.map_cons, List.map_nil, List.append_nil, List.cons_append,
      List.nil_append, List.sum_cons, List.sum_nil]
    norm_num
  · intro a d _
    by_cases hd : d.1 = 0 ∧ d.2 = 0
    · simp [hd]
    · simp only [hd, if_false, adjacencyContribution]
      rcases hcell : cellAt? g ((x : Int) + d.2) ((y : Int) + d.1) with _ | c
      · simp
      · rcases hcb : c.building with _ | b
        · simp [hcb]
        · by_cases ho : b.owner = Owner.player <;> simp [hcb, ho]

/-- A grid stores its own position in each cell. -/
def coordsConsistent (g : Grid) : Prop :=
  ∀ j i : Fin 12, (g j i).x = i.val ∧ (g j i).y = j.val

instance (g : Grid) : Decidable (coordsConsistent g) :=
  inferInstanceAs (Decidable (∀ j i : Fin 12, (g j i).x = i.val ∧ (g j i).y = j.val))

/-- `setCell` keeps coordinates consistent when the new cell carries its
position. -/
theorem coordsConsistent_setCell (g : Grid) (y x : Fin 12) (c : Cell)
    (hg : coordsConsistent g) (hcx : c.x = x.val) (hcy : c.y = y.val) :
    coordsConsistent (setCell g y x c) := by
  intro j i
  unfold setCell
  by_cases h : j = y ∧ i = x
  · rw [if_pos h]
    obtain ⟨hj, hi⟩ := h
    subst hj; subst hi
    exact ⟨hcx, hcy⟩
  · rw [if_neg h]
    exact hg j i

/-- Revealing keeps coordinates consistent. -/
theorem coordsConsistent_reveal (x y : Fin 12) (g : Grid) (hg : coordsConsistent g) :
    coordsConsistent (revealAdjacentCells x y g) := by
  intro j i
  obtain ⟨h1, h2⟩ := revealAdjacentCells_coords x y g j i
  rw [h1, h2]
  exact hg j i

/-- The bonus-recomputation pass keeps coordinates consistent. -/
theorem coordsConsistent_updateAll (g : Grid) (hg : coordsConsistent g) :
    coordsConsistent (updateAllAdjacencyBonuses g) := by
  intro j i
  obtain ⟨-, h1, h2, -, -⟩ := updateAllAdjacencyBonuses_shape g j i
  rw [h1, h2]
  exact hg j i

/-- The grid of a successful placement keeps coordinates consistent. -/
theorem coordsConsistent_placedGrid (s : GameState) (x y : Fin 12) (t : BuildingType)
    (hg : coordsConsistent s.grid) : coordsConsistent (placedGrid s x y t) := by
  unfold placedGrid
  apply coordsConsistent_updateAll
  apply coordsConsistent_setCell
  · exact coordsConsistent_reveal x y s.grid hg
  · exact ((coordsConsistent_reveal x y s.grid hg) y x).1
  · exact ((coordsConsistent_reveal x y s.grid hg) y x).2

/-- A successful `placeBuilding` has a cost row and produces the
explicit applied state. -/
theorem placeBuilding_success (s : GameState) (x y : Fin 12) (t : BuildingType)
    (h : (isValidPlacement s x y t && canAffordBuilding s t) = true) :
    ∃ cost, BUILDING_COSTS t = some cost ∧
      placeBuilding s x y t = placeBuildingApplied s x y t cost := by
  have h2 := h
  rw [Bool.and_eq_true] at h2
  have h3 := h2.2
  rw [canAffordBuilding_eq_true_iff] at h3
  obtain ⟨c, hc, -⟩ := h3
  refine ⟨c, hc, ?_⟩
  unfold placeBuilding
  rw [if_pos h, hc]

/-- The income written by the recomputation pass, at the cell's stored
coordinates. -/
theorem updateAll_income (g : Grid) (j i : Fin 12) (b : Building)
    (hb : ((updateAllAdjacencyBonuses g) j i).building = some b) (ho : b.owner = Owner.player) :
    b.income = getBaseIncome b.type + calculateAdjacencyBonus g (g j i).x (g j i).y b.type := by
  unfold updateAllAdjacencyBonuses at hb
  rcases h : (g j i).building with _ | b0
  · simp [h] at hb
  · simp only [h] at hb
    by_cases ho0 : b0.owner = Owner.player
    · simp only [ho0, if_true] at hb
      simp only [Option.some.injEq] at hb
      subst hb
      rfl
    · simp only [ho0, if_false] at hb
      rw [h] at hb
      simp only [Option.some.injEq] at hb
      subst hb
      exact absurd ho ho0

end Empire

namespace Empire

/-- C3: `calculateAdjacencyBonus (x, y, t)` is the sum, over the
at-most-8 in-bounds cells adjacent to `(x, y)` that hold a player-owned
building, of `ADJACENCY_BONUSES[t][neighbor type]` (0 when the pair has
no entry); and after every successful placement on a grid whose cells
carry their own coordinates, every player building's income equals its
type's base gold production plus this bonus on the resulting grid. -/
theorem c3_adjacency_bonus :
    (∀ (g : Grid) (x y : Nat) (t : BuildingType),
      calculateAdjacencyBonus g x y t =
        (neighborOffsets.map (adjacencyContribution g x y t)).sum) ∧
    (∀ (s : GameState) (x y : Fin 12) (t : BuildingType),
      coordsConsistent s.grid →
      (isValidPlacement s x y t && canAffordBuilding s t) = true →
      ∀ (j i : Fin 12) (b : Building),
        ((placeBuilding s x y t).grid j i).building = some b → b.owner = Owner.player →
        b.income = getBaseIncome b.type +
          calculateAdjacencyBonus (placeBuilding s x y t).grid i.val j.val b.type) := by
  refine ⟨calculateAdjacencyBonus_eq_sum, ?_⟩
  intro s x y t hcoords hguard j i b hb ho
  obtain ⟨c, hcost, heq⟩ := placeBuilding_success s x y t hguard
  rw [heq] at hb ⊢
  have hgrid : (placeBuildingApplied s x y t c).grid = placedGrid s x y t := rfl
  rw [hgrid] at hb ⊢
  have hg2 : placedGrid s x y t =
      updateAllAdjacencyBonuses
        (setCell (revealAdjacentCells x y s.grid) y x (placedCell s x y t)) := rfl
  have hg2c : coordsConsistent
      (setCell (revealAdjacentCells x y s.grid) y x (placedCell s x y t)) := by
    apply coordsConsistent_setCell
    · exact coordsConsistent_reveal x y s.grid hcoords
    · exact ((coordsConsistent_reveal x y s.grid hcoords) y x).1
    · exact ((coordsConsistent_reveal x y s.grid hcoords) y x).2
  rw [hg2] at hb ⊢
  have hinc := updateAll_income _ j i b hb ho
  rw [(hg2c j i).1, (hg2c j i).2] at hinc
  rw [calculateAdjacencyBonus_updateAll]
  exact hinc

/-- C3 witness: the income law applied after the concrete house
placement next to the initial castle. -/
theorem c3_adjacency_bonus_witness :
    coordsConsistent sampleState.grid ∧
    (isValidPlacement sampleState 7 6 .house && canAffordBuilding sampleState .house) = true ∧
    (∀ (j i : Fin 12) (b : Building),
      ((placeBuilding sampleState 7 6 .house).grid j i).building = some b →
      b.owner = Owner.player →
      b.income = getBaseIncome b.type +
        calculateAdjacencyBonus (placeBuilding sampleState 7 6 .house).grid i.val j.val b.type) :=
  ⟨by decide, by decide,
    c3_adjacency_bonus.2 sampleState 7 6 .house (by decide) (by decide)⟩

end Empire

namespace Empire

/-- Non-negativity of all five player resources. -/
def PlayerNonneg (p : PlayerState) : Prop :=
  0 ≤ p.gold ∧ 0 ≤ p.population ∧ 0 ≤ p.food ∧ 0 ≤ p.militaryStrength ∧ 0 ≤ p.army

/-- The turn-advance clamps: gold, food, military strength and army at
0, population at 1. -/
theorem nextTurn_player_clamped (s : GameState) (r : Randomness) :
    0 ≤ (nextTurn s r).player.gold ∧ 1 ≤ (nextTurn s r).player.population ∧
    0 ≤ (nextTurn s r).player.food ∧ 0 ≤ (nextTurn s r).player.militaryStrength ∧
    0 ≤ (nextTurn s r).player.army := by
  rw [nextTurn_player]
  exact ⟨le_max_left _ _, le_max_left _ _, le_max_left _ _, le_max_left _ _, le_max_left _ _⟩

/-- Placement deducts only costs the affordability check has verified
are covered, so non-negativity is preserved. -/
theorem placeBuilding_player_nonneg (s : GameState) (x y : Fin 12) (t : BuildingType)
    (h : PlayerNonneg s.player) : PlayerNonneg (placeBuilding s x y t).player := by
  by_cases hg : (isValidPlacement s x y t && canAffordBuilding s t) = true
  · obtain ⟨c, hcost, heq⟩ := placeBuilding_success s x y t hg
    rw [heq]
    have h2 := hg
    rw [Bool.and_eq_true] at h2
    have h3 := h2.2
    rw [canAffordBuilding_eq_true_iff] at h3
    obtain ⟨c', hc', hgold, hfood, hpop⟩ := h3
    rw [hcost] at hc'
    injection hc' with hc'
    subst hc'
    have hp : (placeBuildingApplied s x y t c).player =
        { s.player with
          gold := s.player.gold - c.gold, food := s.player.food - c.food,
          population := s.player.population - c.population +
            (if t = .house then 2 else 0) } := rfl
    unfold PlayerNonneg at h ⊢
    rw [hp]
    by_cases ht : t = BuildingType.house <;> simp only [ht, if_true, if_false, ite_true, ite_false] <;>
      exact ⟨by omega, by omega, by omega, h.2.2.2.1, h.2.2.2.2⟩
  · unfold placeBuilding
    rw [if_neg hg]
    exact h

/-- Every operation preserves player-resource non-negativity. -/
theorem applyOp_player_nonneg (s : GameState) (op : Op) (h : PlayerNonneg s.player) :
    PlayerNonneg (applyOp s op).player := by
  cases op with
  | place x y t => exact placeBuilding_player_nonneg s x y t h
  | advance r =>
    obtain ⟨h1, h2, h3, h4, h5⟩ := nextTurn_player_clamped s r
    simp only [applyOp]
    exact ⟨h1, by omega, h3, h4, h5⟩

/-- Non-negativity is preserved along every operation sequence. -/
theorem applyOps_player_nonneg (ops : List Op) (s : GameState) (h : PlayerNonneg s.player) :
    PlayerNonneg (applyOps s ops).player := by
  induction ops generalizing s with
  | nil => exact h
  | cons op ops ih => exact ih _ (applyOp_player_nonneg s op h)

/-- C9: from the initial state (300 gold, 10 population, 50 food, 5
military strength, 5 army), after every sequence of building placements
and turn advances all five player resources are non-negative; the turn
advance clamps gold, food, military strength and army at 0 and
population at 1, and placement only deducts verified costs. -/
theorem c9_resource_nonnegativity :
    (∀ (terrain : Fin 12 → Fin 12 → Terrain) (res : Fin 12 → Fin 12 → Int) (ops : List Op),
      PlayerNonneg (applyOps (initGameState terrain res) ops).player) ∧
    (∀ (s : GameState) (r : Randomness),
      0 ≤ (nextTurn s r).player.gold ∧ 1 ≤ (nextTurn s r).player.population ∧
      0 ≤ (nextTurn s r).player.food ∧ 0 ≤ (nextTurn s r).player.militaryStrength ∧
      0 ≤ (nextTurn s r).player.army) := by
  constructor
  · intro terrain res ops
    apply applyOps_player_nonneg
    have hp : (initGameState terrain res).player =
        { gold := 300, population := 10, army := 5, food := 50, militaryStrength := 5 } := rfl
    unfold PlayerNonneg
    rw [hp]
    norm_num
  · exact nextTurn_player_clamped

end Empire

namespace Empire

/-- A revealed cell stays revealed through any reveal fold. -/
theorem foldl_revealAt_mono (l : List (Int × Int)) (x y : Fin 12) (g : Grid) (j i : Fin 12)
    (h : (g j i).isRevealed = true) :
    ((l.foldl (fun acc d => revealAt acc ((x : Int) + d.2) ((y : Int) + d.1)) g) j i).isRevealed =
      true := by
  rcases foldl_revealAt_cases l x y g j i with h2 | h2 <;> rw [h2]
  exact h

/-- `revealAt` at a cell's own coordinates reveals it. -/
theorem revealAt_hits (g : Grid) (j i : Fin 12) :
    (revealAt g (i : Int) (j : Int) j i).isRevealed = true := by
  have hi : 0 ≤ ((i : Fin 12) : Int) ∧ ((i : Fin 12) : Int) < 12 := by
    have := i.isLt; omega
  have hj : 0 ≤ ((j : Fin 12) : Int) ∧ ((j : Fin 12) : Int) < 12 := by
    have := j.isLt; omega
  unfold revealAt setCell
  rw [dif_pos hi, dif_pos hj]
  dsimp only
  have hcond : j = (⟨((j : Fin 12) : Int).toNat, by omega⟩ : Fin 12) ∧
      i = (⟨((i : Fin 12) : Int).toNat, by omega⟩ : Fin 12) := by
    constructor <;> apply Fin.ext <;> simp
  rw [if_pos hcond]

/-- The nine offsets contain every pair with coordinates in `[-1, 1]`. -/
theorem mem_offsets3x3 (p : Int × Int) (h1 : p.1 = -1 ∨ p.1 = 0 ∨ p.1 = 1)
    (h2 : p.2 = -1 ∨ p.2 = 0 ∨ p.2 = 1) : p ∈ offsets3x3 := by
  rcases p with ⟨a, b⟩
  rcases h1 with h | h | h <;> rcases h2 with h' | h' | h' <;> subst h <;> subst h' <;> decide

/-- The reveal fold reveals every cell whose offset appears in the
list. -/
theorem foldl_revealAt_covers (l : List (Int × Int)) (x y : Fin 12) (g : Grid) (j i : Fin 12)
    (hmem : ((j : Int) - (y : Int), (i : Int) - (x : Int)) ∈ l) :
    ((l.foldl (fun acc d => revealAt acc ((x : Int) + d.2) ((y : Int) + d.1)) g) j i).isRevealed =
      true := by
  induction l generalizing g with
  | nil => cases hmem
  | cons d l ih =>
    simp only [List.foldl_cons]
    rcases List.mem_cons.1 hmem with heq | hmem2
    · apply foldl_revealAt_mono
      have hxa : (x : Int) + ((j : Int) - (y : Int), (i : Int) - (x : Int)).2 = (i : Int) := by
        dsimp only
        ring
      have hya : (y : Int) + ((j : Int) - (y : Int), (i : Int) - (x : Int)).1 = (j : Int) := by
        dsimp only
        ring
      rw [← heq, hxa, hya]
      exact revealAt_hits g j i
    · exact ih _ hmem2

/-- `revealAdjacentCells (x, y)` reveals every in-bounds cell within
Chebyshev distance 1 of `(x, y)`. -/
theorem revealAdjacentCells_covers (x y : Fin 12) (g : Grid) (j i : Fin 12)
    (hd : calculateDistance i.val j.val x.val y.val ≤ 1) :
    ((revealAdjacentCells x y g) j i).isRevealed = true := by
  apply foldl_revealAt_covers
  apply mem_offsets3x3
  · unfold calculateDistance at hd
    simp only [max_le_iff] at hd
    dsimp only
    omega
  · unfold calculateDistance at hd
    simp only [max_le_iff] at hd
    dsimp only
    omega

/-- The grid of a successful placement keeps every previously revealed
cell revealed. -/
theorem placedGrid_revealed_mono (s : GameState) (x y : Fin 12) (t : BuildingType) (j i : Fin 12)
    (h : (s.grid j i).isRevealed = true) : ((placedGrid s x y t) j i).isRevealed = true := by
  unfold placedGrid
  rw [(updateAllAdjacencyBonuses_shape _ j i).1]
  unfold setCell
  by_cases hc : j = y ∧ i = x
  · rw [if_pos hc]
    obtain ⟨hj, hi⟩ := hc
    unfold placedCell
    dsimp only
    exact revealAdjacentCells_mono x y s.grid y x (by rw [← hj, ← hi]; exact h)
  · rw [if_neg hc]
    exact revealAdjacentCells_mono x y s.grid j i h

/-- No operation un-reveals a cell. -/
theorem applyOp_revealed_mono (s : GameState) (op : Op) (j i : Fin 12)
    (h : (s.grid j i).isRevealed = true) : ((applyOp s op).grid j i).isRevealed = true := by
  cases op with
  | advance r =>
    simp only [applyOp]
    rw [nextTurn_grid]
    exact h
  | place x y t =>
    simp only [applyOp]
    by_cases hg : (isValidPlacement s x y t && canAffordBuilding s t) = true
    · obtain ⟨c, -, heq⟩ := placeBuilding_success s x y t hg
      rw [heq]
      exact placedGrid_revealed_mono s x y t j i h
    · unfold placeBuilding
      rw [if_neg hg]
      exact h

/-- Counting by filtering is summing an indicator. -/
theorem filter_length_eq_sum {α : Type} (p : α → Bool) (l : List α) :
    (l.filter p).length = (l.map (fun a => if p a = true then 1 else 0)).sum := by
  induction l with
  | nil => rfl
  | cons a l ih =>
    by_cases h : p a = true
    · simp only [List.filter_cons, h, if_true, List.length_cons, List.map_cons, List.sum_cons, ih]
      omega
    · simp [h, ih]

/-- The revealed-cell count as a double sum over positions. -/
theorem revealedCount_eq_sum (g : Grid) :
    revealedCount g =
      ∑ j : Fin 12, ∑ i : Fin 12, (if (g j i).isRevealed = true then 1 else 0) := by
  unfold revealedCount
  rw [filter_length_eq_sum, sum_map_gridCells]

/-- Pointwise reveal implication gives a count inequality. -/
theorem revealedCount_mono (g g' : Grid)
    (h : ∀ j i : Fin 12, (g j i).isRevealed = true → (g' j i).isRevealed = true) :
    revealedCount g ≤ revealedCount g' := by
  rw [revealedCount_eq_sum, revealedCount_eq_sum]
  apply Finset.sum_le_sum
  intro j _
  apply Finset.sum_le_sum
  intro i _
  by_cases hc : (g j i).isRevealed = true
  · rw [if_pos hc, if_pos (h j i hc)]
  · rw [if_neg hc]
    split <;> omega

/-- More revealed cells give at least the same territory percentage. -/
theorem calculateTerritoryControl_mono (g g' : Grid)
    (h : revealedCount g ≤ revealedCount g') :
    calculateTerritoryControl g ≤ calculateTerritoryControl g' := by
  unfold calculateTerritoryControl jsRound
  apply Int.floor_le_floor
  have hc : ((revealedCount g : Int) : Rat) ≤ ((revealedCount g' : Int) : Rat) := by
    exact_mod_cast h
  gcongr

end Empire

namespace Empire

/-- The stored territory percentage agrees with the grid. -/
def TerritoryInv (s : GameState) : Prop :=
  s.territoryControlPercentage = calculateTerritoryControl s.grid

/-- Each operation keeps the territory field consistent and never
decreases it. -/
theorem applyOp_territory (s : GameState) (op : Op) (hinv : TerritoryInv s) :
    TerritoryInv (applyOp s op) ∧
    s.territoryControlPercentage ≤ (applyOp s op).territoryControlPercentage := by
  cases op with
  | advance r =>
    simp only [applyOp]
    constructor
    · unfold TerritoryInv at hinv ⊢
      rw [nextTurn_territory, nextTurn_grid]
      exact hinv
    · rw [nextTurn_territory]
  | place x y t =>
    simp only [applyOp]
    by_cases hg : (isValidPlacement s x y t && canAffordBuilding s t) = true
    · obtain ⟨c, -, heq⟩ := placeBuilding_success s x y t hg
      rw [heq]
      have hterr : (placeBuildingApplied s x y t c).territoryControlPercentage =
          calculateTerritoryControl (placedGrid s x y t) := rfl
      have hgrid : (placeBuildingApplied s x y t c).grid = placedGrid s x y t := rfl
      constructor
      · unfold TerritoryInv
        rw [hterr, hgrid]
      · rw [hterr, hinv]
        apply calculateTerritoryControl_mono
        apply revealedCount_mono
        intro j i h
        exact placedGrid_revealed_mono s x y t j i h
    · unfold placeBuilding
      rw [if_neg hg]
      exact ⟨hinv, le_refl _⟩

/-- The initial state's territory field agrees with its grid (9 cells
revealed). -/
theorem initGameState_territory_inv (terrain : Fin 12 → Fin 12 → Terrain)
    (res : Fin 12 → Fin 12 → Int) : TerritoryInv (initGameState terrain res) := by
  unfold TerritoryInv
  have hcount : revealedCount (initGameState terrain res).grid = 9 := by rfl
  have hfield : (initGameState terrain res).territoryControlPercentage =
      jsRound ((9 : Rat) / ((GRID_SIZE : Rat) * GRID_SIZE) * 100) := rfl
  rw [hfield]
  unfold calculateTerritoryControl
  rw [hcount]
  norm_num [jsRound, GRID_SIZE]

/-- Territory consistency and monotonicity along a whole sequence. -/
theorem applyOps_territory (ops : List Op) (s : GameState) (hinv : TerritoryInv s) :
    TerritoryInv (applyOps s ops) ∧
    s.territoryControlPercentage ≤ (applyOps s ops).territoryControlPercentage := by
  induction ops generalizing s with
  | nil => exact ⟨hinv, le_refl _⟩
  | cons op ops ih =>
    obtain ⟨h1, h2⟩ := applyOp_territory s op hinv
    obtain ⟨h3, h4⟩ := ih (applyOp s op) h1
    exact ⟨h3, le_trans h2 h4⟩

/-- C10: no operation un-reveals a revealed cell; a successful building
placement at `(x, y)` reveals every in-bounds cell within Chebyshev
distance 1; `calculateTerritoryControl` is
`round(100 * revealedCells / 144)`; and along every operation sequence
from the initial state the territory percentage never decreases. -/
theorem c10_reveal_monotonicity :
    (∀ (s : GameState) (op : Op) (j i : Fin 12),
      (s.grid j i).isRevealed = true → ((applyOp s op).grid j i).isRevealed = true) ∧
    (∀ (s : GameState) (x y : Fin 12) (t : BuildingType),
      (isValidPlacement s x y t && canAffordBuilding s t) = true →
      ∀ (j i : Fin 12), calculateDistance i.val j.val x.val y.val ≤ 1 →
        ((placeBuilding s x y t).grid j i).isRevealed = true) ∧
    (∀ g : Grid,
      calculateTerritoryControl g = jsRound ((revealedCount g : Rat) * 100 / 144)) ∧
    (∀ (terrain : Fin 12 → Fin 12 → Terrain) (res : Fin 12 → Fin 12 → Int)
        (ops1 ops2 : List Op),
      (applyOps (initGameState terrain res) ops1).territoryControlPercentage ≤
        (applyOps (initGameState terrain res) (ops1 ++ ops2)).territoryControlPercentage) := by
  refine ⟨applyOp_revealed_mono, ?_, ?_, ?_⟩
  · intro s x y t hg j i hd
    obtain ⟨c, -, heq⟩ := placeBuilding_success s x y t hg
    rw [heq]
    have hgrid : (placeBuildingApplied s x y t c).grid = placedGrid s x y t := rfl
    rw [hgrid]
    unfold placedGrid
    rw [(updateAllAdjacencyBonuses_shape _ j i).1]
    unfold setCell
    by_cases hc : j = y ∧ i = x
    · rw [if_pos hc]
      unfold placedCell
      dsimp only
      exact revealAdjacentCells_covers x y s.grid y x (by unfold calculateDistance; simp)
    · rw [if_neg hc]
      exact revealAdjacentCells_covers x y s.grid j i hd
  · intro g
    apply congrArg jsRound
    push_cast
    norm_num [GRID_SIZE]
    ring
  · intro terrain res ops1 ops2
    have hinv1 := (applyOps_territory ops1 _ (initGameState_territory_inv terrain res)).1
    unfold applyOps
    rw [List.foldl_append]
    exact (applyOps_territory ops2 _ hinv1).2

/-- C10 witness: monotonicity and the 3×3 reveal applied at concrete
states. -/
theorem c10_reveal_monotonicity_witness :
    (sampleState.grid 6 6).isRevealed = true ∧
    ((applyOp sampleState (Op.advance drawB)).grid 6 6).isRevealed = true ∧
    (isValidPlacement sampleState 7 6 .house && canAffordBuilding sampleState .house) = true ∧
    calculateDistance 8 7 7 6 ≤ 1 ∧
    ((placeBuilding sampleState 7 6 .house).grid 7 8).isRevealed = true :=
  ⟨by decide, c10_reveal_monotonicity.1 sampleState (Op.advance drawB) 6 6 (by decide),
    by decide, by decide,
    c10_reveal_monotonicity.2.1 sampleState 7 6 .house (by decide) 7 8 (by decide)⟩

end Empire

namespace Empire

/-- The per-achievement update keeps the achievement id. -/
theorem updateAchievement_id (st : GameState) (a : Achievement) :
    (updateAchievement st a).id = a.id := by
  unfold updateAchievement
  split_ifs <;> rfl

/-- The per-achievement update is idempotent: it overwrites `progress`
and `unlocked` with values read from the state only. -/
theorem updateAchievement_idem (st : GameState) (a : Achievement) :
    updateAchievement st (updateAchievement st a) = updateAchievement st a := by
  by_cases h1 : a.id = "first_building"
  · simp [updateAchievement, h1]
  · by_cases h2 : a.id = "gold_collector"
    · simp [updateAchievement, h1, h2]
    · by_cases h3 : a.id = "empire_builder"
      · simp [updateAchievement, h1, h2, h3]
      · by_cases h4 : a.id = "all_buildings"
        · simp [updateAchievement, h1, h2, h3, h4]
        · by_cases h5 : a.id = "population_boom"
          · simp [updateAchievement, h1, h2, h3, h4, h5]
          · simp [updateAchievement, h1, h2, h3, h4, h5]

/-- The per-achievement update reads only grid, player and territory. -/
theorem updateAchievement_congr (st1 st2 : GameState) (hg : st1.grid = st2.grid)
    (hp : st1.player = st2.player)
    (ht : st1.territoryControlPercentage = st2.territoryControlPercentage) :
    updateAchievement st1 = updateAchievement st2 := by
  funext a
  unfold updateAchievement
  rw [hg, hp, ht]

/-- A state whose achievements were just recomputed from matching data
is a fixed point of the recomputation. -/
theorem updateAchievements_fix2 (st st2 : GameState)
    (ha : st2.achievements = updateAchievements st) (hg : st2.grid = st.grid)
    (hp : st2.player = st.player)
    (ht : st2.territoryControlPercentage = st.territoryControlPercentage) :
    st2.achievements = updateAchievements st2 := by
  have key : updateAchievements st2 = updateAchievements st := by
    calc updateAchievements st2 = st2.achievements.map (updateAchievement st2) := rfl
      _ = (updateAchievements st).map (updateAchievement st) := by
          rw [ha, updateAchievement_congr st2 st hg hp ht]
      _ = st.achievements.map (updateAchievement st ∘ updateAchievement st) := by
          unfold updateAchievements
          rw [List.map_map]
      _ = st.achievements.map (updateAchievement st) :=
          List.map_congr_left (fun a _ => updateAchievement_idem st a)
      _ = updateAchievements st := rfl
  rw [key, ha]

/-- After a successful placement the achievements are exactly the
recomputation from the resulting state. -/
theorem placeBuilding_achievements_fixed (s : GameState) (x y : Fin 12) (t : BuildingType)
    (h : (isValidPlacement s x y t && canAffordBuilding s t) = true) :
    (placeBuilding s x y t).achievements = updateAchievements (placeBuilding s x y t) := by
  obtain ⟨c, -, heq⟩ := placeBuilding_success s x y t h
  rw [heq]
  exact updateAchievements_fix2 _ _ rfl rfl rfl rfl

/-- After a turn advance the achievements are exactly the recomputation
from the resulting state. -/
theorem nextTurn_achievements_fixed (s : GameState) (r : Randomness) :
    (nextTurn s r).achievements = updateAchievements (nextTurn s r) := by
  simp only [nextTurn]
  split
  · exact updateAchievements_fix2 _ _ rfl rfl rfl rfl
  · exact updateAchievements_fix2 _ _ rfl rfl rfl rfl

/-- `placeBuilding` never changes the game phase. -/
theorem placeBuilding_gamePhase (s : GameState) (x y : Fin 12) (t : BuildingType) :
    (placeBuilding s x y t).gamePhase = s.gamePhase := by
  unfold placeBuilding
  split
  · split <;> rfl
  · rfl

/-- `placeBuilding` never sets the win flag. -/
theorem placeBuilding_gameWon (s : GameState) (x y : Fin 12) (t : BuildingType) :
    (placeBuilding s x y t).gameWon = s.gameWon := by
  unfold placeBuilding
  split
  · split <;> rfl
  · rfl

end Empire

namespace Empire

/-- A concrete mid-game grid: rows 0–6 and the cell (0, 7) revealed
(85 cells), a lone player castle at column 1, row 6, all grass. -/
def gridC : Grid := fun j i =>
  { x := i.val, y := j.val,
    isRevealed := decide (j.val < 7 ∨ (j.val = 7 ∧ i.val = 0)),
    building :=
      if j.val = 6 ∧ i.val = 1 then
        some { type := .castle, level := 1, owner := .player, income := 20, adjacencyBonuses := [] }
      else none,
    terrain := .grass, resources := 10, adjacencyBonus := 0 }

/-- A concrete mid-game state over `gridC`; its stored territory
percentage 59 agrees with the 85 revealed cells. -/
def stateC : GameState :=
  { grid := gridC, turn := 1, timeOfDay := .day, isTransitioning := false,
    player := { gold := 300, population := 10, army := 5, food := 50, militaryStrength := 5 },
    selectedCell := none, gamePhase := .placement,
    resourceChanges := ⟨0, 0, 0, 0⟩, lastTurnIncome := ⟨0, 0, 0, 0⟩,
    turnEvents := [], showTurnSummary := false, showEndTurnConfirm := false,
    territoryControlPercentage := 59, currentSeason := springSeason,
    achievements := INITIAL_ACHIEVEMENTS, gameWon := false, victoryType := none,
    showVictoryScreen := false, isLoading := false }

/-- C6 counterexample: building placement never evaluates the win
conditions.  In `stateC` no win condition holds; placing a house at
`(0, 7)` succeeds and pushes territory control to 61% — the written
victory condition now holds on the resulting state — yet the resulting
state is not in the victory phase and `gameWon` is still false. -/
theorem c6_victory_check_timing_counterexample :
    (checkVictoryConditions stateC).won = false ∧
    (isValidPlacement stateC 0 7 .house && canAffordBuilding stateC .house) = true ∧
    ((placeBuilding stateC 0 7 .house).grid 7 0).building.isSome = true ∧
    (checkVictoryConditions (placeBuilding stateC 0 7 .house)).won = true ∧
    (placeBuilding stateC 0 7 .house).gamePhase ≠ GamePhase.victory ∧
    (placeBuilding stateC 0 7 .house).gameWon = false := by
  have hguard : (isValidPlacement stateC 0 7 .house && canAffordBuilding stateC .house) = true := by
    decide
  have hterr : (placeBuilding stateC 0 7 .house).territoryControlPercentage =
      calculateTerritoryControl (placedGrid stateC 0 7 .house) := by
    obtain ⟨c, -, heq⟩ := placeBuilding_success stateC 0 7 .house hguard
    rw [heq]
    rfl
  have hcount : revealedCount (placedGrid stateC 0 7 .house) = 88 := by decide
  have ht61 : calculateTerritoryControl (placedGrid stateC 0 7 .house) = 61 := by
    unfold calculateTerritoryControl
    rw [hcount]
    norm_num [jsRound, GRID_SIZE]
  have hwon : (checkVictoryConditions (placeBuilding stateC 0 7 .house)).won = true := by
    unfold checkVictoryConditions
    rw [hterr, ht61]
    norm_num
  refine ⟨by decide, hguard, by decide, hwon, ?_, ?_⟩
  · rw [placeBuilding_gamePhase]
    decide
  · rw [placeBuilding_gameWon]
    rfl

/-- C6 amended: after every state-changing operation (successful
placement or turn advance) the achievement list of the resulting state
is exactly the recomputation from that resulting state; but win
conditions are checked only on turn advance, and there they are
evaluated against the *pre-advance* state, so the game enters the
victory phase only on the first turn advance after the conditions
became satisfied — never directly upon a placement. -/
theorem c6_achievement_victory_timing_amended :
    (∀ (s : GameState) (x y : Fin 12) (t : BuildingType),
      (isValidPlacement s x y t && canAffordBuilding s t) = true →
      (placeBuilding s x y t).achievements = updateAchievements (placeBuilding s x y t)) ∧
    (∀ (s : GameState) (r : Randomness),
      (nextTurn s r).achievements = updateAchievements (nextTurn s r)) ∧
    (∀ (s : GameState) (x y : Fin 12) (t : BuildingType),
      (placeBuilding s x y t).gamePhase = s.gamePhase ∧
      (placeBuilding s x y t).gameWon = s.gameWon) ∧
    (∀ (s : GameState) (r : Randomness),
      (nextTurn s r).gameWon = (s.gameWon || (checkVictoryConditions s).won) ∧
      (nextTurn s r).gamePhase =
        (if (checkVictoryConditions s).won then GamePhase.victory else s.gamePhase)) :=
  ⟨placeBuilding_achievements_fixed, nextTurn_achievements_fixed,
    fun s x y t => ⟨placeBuilding_gamePhase s x y t, placeBuilding_gameWon s x y t⟩,
    fun s r => ⟨nextTurn_gameWon s r, nextTurn_gamePhase s r⟩⟩

/-- C6 witness: the recomputation fixed point after the concrete house
placement next to the initial castle. -/
theorem c6_achievement_victory_timing_amended_witness :
    (isValidPlacement sampleState 7 6 .house && canAffordBuilding sampleState .house) = true ∧
    (placeBuilding sampleState 7 6 .house).achievements =
      updateAchievements (placeBuilding sampleState 7 6 .house) :=
  ⟨by decide,
    c6_achievement_victory_timing_amended.1 sampleState 7 6 .house (by decide)⟩

end Empire
